import Mathlib

/-!
# Verification of the Slushie mixer core

Shallow embedding of the Slushie repository (`src/lib.rs`,
`src/tree/merkle_tree.rs`, `src/tree/hasher.rs`) in Lean 4, together with
proofs that settle the frozen claims about the specification.

Conventions of the embedding:
* a Rust `[u8; 32]` hash value is a `List Nat` of length 32 with entries
  below 256 (`Hash`);
* Rust `u64` counters are `Nat` (the only arithmetic performed on them is
  `+ 1` bounded by `2 ^ 20` and `% 30`, so no wrap-around can occur);
* a Rust `Vec` is a `List`; the panicking index `v[i]` is embedded as
  `List.getD` (total), and separately-defined `Checked` variants that use
  `List.get?` make each potential panic an explicit `Option.none`, so that
  panic-freedom is a provable statement;
* `Result<T, E>` is `Except E T`; fallible external calls are explicit
  inputs (`LedgerEnv`).
-/

/-- A 32-byte hash value (`[u8; 32]` in the source). -/
abbrev Hash : Type := List Nat

/-- The reserved all-zero sentinel `[0; 32]`. -/
def zeroHash : Hash := List.replicate 32 0

/-! ## BLAKE2b-256

`ink_env::hash::Blake2x256` is BLAKE2b (RFC 7693) with a 32-byte digest and
no key.  The tree only ever hashes 64-byte messages (two concatenated hash
values), which fit in a single final block.  Words are 64-bit, embedded as
`Nat` reduced modulo `2 ^ 64` after every addition. -/

/-- 2 ^ 64, the modulus of BLAKE2b word arithmetic. -/
def w64 : Nat := 18446744073709551616

/-- Addition modulo 2 ^ 64. -/
def add64 (a b : Nat) : Nat := (a + b) % w64

/-- Right rotation of a 64-bit word by `n` bits (0 < n < 64). -/
def rotr64 (x n : Nat) : Nat := (x >>> n) ||| ((x <<< (64 - n)) % w64)

/-- The BLAKE2b initialization vector (RFC 7693 §2.6). -/
def blakeIV : List Nat :=
  [0x6a09e667f3bcc908, 0xbb67ae8584caa73b, 0x3c6ef372fe94f82b,
   0xa54ff53a5f1d36f1, 0x510e527fade682d1, 0x9b05688c2b3e6c1f,
   0x1f83d9abfb41bd6b, 0x5be0cd19137e2179]

/-- The BLAKE2b message schedule SIGMA (RFC 7693 §2.7). -/
def blakeSigma : List (List Nat) :=
  [[0, 1, 2, 3, 4, 5, 6, 7, 8, 9, 10, 11, 12, 13, 14, 15],
   [14, 10, 4, 8, 9, 15, 13, 6, 1, 12, 0, 2, 11, 7, 5, 3],
   [11, 8, 12, 0, 5, 2, 15, 13, 10, 14, 3, 6, 7, 1, 9, 4],
   [7, 9, 3, 1, 13, 12, 11, 14, 2, 6, 5, 10, 4, 0, 15, 8],
   [9, 0, 5, 7, 2, 4, 10, 15, 14, 1, 11, 12, 6, 8, 3, 13],
   [2, 12, 6, 10, 0, 11, 8, 3, 4, 13, 7, 5, 15, 14, 1, 9],
   [12, 5, 1, 15, 14, 13, 4, 10, 0, 7, 6, 3, 9, 2, 8, 11],
   [13, 11, 7, 14, 12, 1, 3, 9, 5, 0, 15, 4, 8, 6, 2, 10],
   [6, 15, 14, 9, 11, 3, 0, 8, 12, 2, 13, 7, 1, 4, 10, 5],
   [10, 2, 8, 4, 7, 6, 1, 5, 15, 11, 9, 14, 3, 12, 13, 0]]

/-- The BLAKE2b mixing function G acting on the work vector `v`
(RFC 7693 §3.1). -/
def blakeG (v : List Nat) (a b c d x y : Nat) : List Nat :=
  let va := add64 (add64 (v.getD a 0) (v.getD b 0)) x
  let vd := rotr64 ((v.getD d 0) ^^^ va) 32
  let vc := add64 (v.getD c 0) vd
  let vb := rotr64 ((v.getD b 0) ^^^ vc) 24
  let va := add64 (add64 va vb) y
  let vd := rotr64 (vd ^^^ va) 16
  let vc := add64 vc vd
  let vb := rotr64 (vb ^^^ vc) 63
  (((v.set a va).set b vb).set c vc).set d vd

/-- One BLAKE2b round: eight applications of G as scheduled by a SIGMA row
`s` on message words `m` (RFC 7693 §3.2). -/
def blakeRound (m : List Nat) (v : List Nat) (s : List Nat) : List Nat :=
  let v := blakeG v 0 4 8 12 (m.getD (s.getD 0 0) 0) (m.getD (s.getD 1 0) 0)
  let v := blakeG v 1 5 9 13 (m.getD (s.getD 2 0) 0) (m.getD (s.getD 3 0) 0)
  let v := blakeG v 2 6 10 14 (m.getD (s.getD 4 0) 0) (m.getD (s.getD 5 0) 0)
  let v := blakeG v 3 7 11 15 (m.getD (s.getD 6 0) 0) (m.getD (s.getD 7 0) 0)
  let v := blakeG v 0 5 10 15 (m.getD (s.getD 8 0) 0) (m.getD (s.getD 9 0) 0)
  let v := blakeG v 1 6 11 12 (m.getD (s.getD 10 0) 0) (m.getD (s.getD 11 0) 0)
  let v := blakeG v 2 7 8 13 (m.getD (s.getD 12 0) 0) (m.getD (s.getD 13 0) 0)
  blakeG v 3 4 9 14 (m.getD (s.getD 14 0) 0) (m.getD (s.getD 15 0) 0)

/-- The BLAKE2b compression function F on a single final block: `h` is the
state, `m` the 16 message words, `t` the total byte count (RFC 7693 §3.2,
with the final-block flag set). -/
def blakeCompress (h m : List Nat) (t : Nat) : List Nat :=
  let v := h ++ blakeIV
  let v := v.set 12 ((v.getD 12 0) ^^^ (t % w64))
  let v := v.set 14 ((v.getD 14 0) ^^^ (w64 - 1))
  let v := (List.range 12).foldl (fun v r => blakeRound m v (blakeSigma.getD (r % 10) [])) v
  (List.range 8).map (fun i => ((h.getD i 0) ^^^ (v.getD i 0)) ^^^ (v.getD (i + 8) 0))

/-- Decode a little-endian byte list into a word. -/
def bytesToWord (bs : List Nat) : Nat := bs.foldr (fun b acc => b + 256 * acc) 0

/-- Split a 128-byte block into its 16 little-endian message words. -/
def blockWords (block : List Nat) : List Nat :=
  (List.range 16).map (fun i => bytesToWord ((block.drop (8 * i)).take 8))

/-- The 8 little-endian bytes of a 64-bit word. -/
def wordBytes (val : Nat) : List Nat := (List.range 8).map (fun j => (val >>> (8 * j)) % 256)

/-- BLAKE2b with a 32-byte digest and no key, on a message of at most 128
bytes (a single final block); the parameter-block word XORed into the first
state word is `0x0101_0020` (depth 1, fanout 1, digest length 32, key
length 0).  This is exactly `ink_env::hash::Blake2x256` on such inputs. -/
def blake2b256 (data : List Nat) : List Nat :=
  let h0 := blakeIV.set 0 ((blakeIV.getD 0 0) ^^^ 0x01010020)
  let block := data ++ List.replicate (128 - data.length) 0
  let h := blakeCompress h0 (blockWords block) data.length
  ((h.take 4).map wordBytes).flatten
/-- The hard-coded empty-subtree table of `src/tree/merkle_tree.rs`
(lines 140-225): 21 precomputed hashes for a Blake2x256 Merkle tree. -/
def ZEROS : List Hash := [
  [137, 235, 13, 106, 138, 105, 29, 174, 44, 209, 94, 208, 54, 153, 49, 206, 10, 148, 158, 202, 250, 92, 63, 147, 248, 18, 24, 51, 100, 110, 21, 195],
  [104, 168, 125, 50, 87, 8, 160, 41, 67, 148, 125, 45, 203, 108, 96, 86, 17, 230, 85, 13, 194, 93, 167, 225, 221, 12, 48, 84, 247, 118, 182, 25],
  [192, 223, 2, 191, 176, 220, 242, 58, 89, 162, 142, 237, 180, 91, 160, 213, 253, 242, 227, 119, 219, 125, 35, 22, 151, 22, 91, 213, 82, 80, 188, 152],
  [184, 186, 123, 41, 140, 111, 6, 81, 201, 118, 249, 207, 237, 221, 84, 34, 41, 223, 166, 157, 162, 201, 222, 22, 145, 44, 25, 167, 128, 33, 117, 27],
  [1, 236, 226, 122, 103, 174, 6, 29, 247, 94, 30, 219, 142, 189, 238, 169, 231, 9, 110, 223, 47, 158, 205, 189, 66, 44, 248, 134, 197, 117, 176, 17],
  [70, 202, 219, 182, 158, 77, 112, 110, 237, 181, 14, 135, 46, 158, 99, 12, 92, 101, 166, 248, 229, 138, 193, 98, 7, 239, 198, 130, 19, 18, 118, 221],
  [24, 48, 173, 238, 12, 111, 99, 177, 62, 51, 75, 95, 245, 87, 114, 228, 69, 248, 198, 140, 154, 40, 209, 251, 117, 223, 203, 201, 95, 65, 104, 124],
  [145, 50, 171, 247, 213, 223, 250, 108, 74, 236, 114, 141, 189, 93, 247, 31, 48, 188, 35, 130, 148, 104, 73, 185, 26, 35, 114, 164, 121, 73, 129, 126],
  [179, 190, 156, 95, 120, 9, 200, 160, 72, 139, 214, 45, 228, 178, 135, 133, 112, 141, 252, 225, 194, 20, 146, 109, 166, 41, 249, 154, 221, 14, 150, 61],
  [254, 211, 89, 65, 11, 53, 128, 150, 100, 131, 252, 145, 42, 96, 67, 39, 33, 242, 115, 221, 221, 99, 88, 115, 34, 46, 250, 86, 65, 225, 113, 249],
  [40, 22, 41, 223, 104, 18, 214, 28, 115, 127, 73, 29, 0, 147, 134, 37, 222, 38, 217, 223, 145, 30, 51, 140, 139, 161, 22, 83, 150, 16, 205, 234],
  [29, 253, 52, 127, 34, 77, 215, 37, 193, 54, 12, 203, 249, 66, 175, 49, 136, 161, 108, 68, 53, 131, 118, 65, 126, 133, 53, 253, 185, 167, 4, 222],
  [136, 107, 100, 7, 46, 55, 3, 189, 46, 20, 121, 230, 95, 116, 208, 74, 125, 77, 20, 168, 43, 241, 156, 229, 113, 215, 49, 26, 246, 0, 63, 146],
  [92, 236, 141, 144, 118, 224, 56, 35, 79, 239, 156, 198, 97, 84, 140, 254, 123, 119, 215, 3, 51, 159, 135, 223, 121, 49, 227, 18, 27, 44, 228, 51],
  [104, 240, 237, 187, 40, 32, 172, 44, 101, 248, 89, 132, 151, 45, 3, 120, 173, 184, 171, 36, 91, 208, 160, 222, 233, 61, 227, 242, 4, 53, 17, 81],
  [231, 144, 155, 95, 101, 88, 175, 252, 45, 37, 111, 129, 101, 119, 178, 122, 8, 81, 103, 252, 81, 194, 207, 192, 5, 77, 80, 159, 110, 191, 197, 231],
  [58, 137, 120, 1, 121, 23, 245, 68, 56, 28, 211, 177, 9, 34, 59, 93, 173, 68, 153, 66, 116, 81, 17, 150, 251, 254, 248, 39, 141, 17, 238, 77],
  [14, 196, 76, 17, 4, 200, 205, 157, 111, 41, 65, 158, 225, 28, 19, 122, 205, 248, 109, 186, 68, 192, 170, 238, 73, 157, 62, 26, 42, 79, 23, 67],
  [245, 94, 4, 255, 39, 60, 137, 109, 38, 229, 48, 29, 141, 221, 67, 227, 213, 210, 103, 125, 31, 32, 123, 248, 127, 77, 207, 71, 122, 98, 78, 184],
  [236, 161, 173, 196, 152, 147, 25, 230, 20, 133, 146, 69, 154, 88, 190, 236, 178, 114, 28, 175, 92, 71, 138, 67, 59, 106, 144, 200, 82, 208, 43, 202],
  [26, 145, 160, 95, 202, 13, 6, 84, 125, 139, 164, 159, 151, 95, 86, 251, 143, 229, 126, 30, 231, 78, 106, 82, 45, 194, 44, 254, 191, 134, 134, 193]
]

/-- The hard-coded empty-subtree table of the `Blake` hasher in
`src/tree/hasher.rs` (lines 23-56): 32 precomputed hashes whose seed is
blake2x256 of the string slushie. -/
def BLAKE_ZEROS : List Hash := [
  [223, 38, 255, 134, 205, 110, 97, 36, 137, 114, 228, 88, 122, 22, 118, 255, 45, 231, 147, 217, 211, 155, 167, 125, 134, 35, 179, 207, 152, 9, 121, 100],
  [8, 161, 240, 122, 167, 9, 197, 72, 171, 47, 249, 225, 49, 213, 146, 173, 95, 81, 174, 152, 164, 34, 235, 125, 212, 236, 75, 181, 133, 18, 36, 247],
  [127, 253, 96, 55, 113, 162, 243, 8, 29, 165, 25, 221, 128, 27, 169, 33, 85, 254, 61, 10, 238, 36, 20, 242, 213, 245, 165, 10, 133, 144, 90, 157],
  [172, 107, 100, 13, 2, 72, 55, 107, 24, 83, 239, 249, 214, 239, 117, 85, 137, 237, 173, 87, 200, 155, 65, 141, 46, 118, 159, 8, 120, 113, 74, 106],
  [59, 184, 193, 135, 118, 231, 38, 38, 101, 215, 85, 52, 28, 52, 209, 191, 255, 138, 71, 164, 203, 163, 43, 0, 88, 122, 17, 140, 57, 73, 195, 51],
  [43, 86, 211, 80, 202, 167, 124, 39, 22, 113, 186, 194, 146, 108, 99, 49, 140, 128, 143, 130, 96, 56, 174, 149, 40, 6, 17, 96, 145, 156, 219, 102],
  [244, 226, 147, 149, 104, 27, 118, 185, 204, 180, 59, 186, 122, 37, 166, 229, 121, 174, 169, 151, 113, 156, 69, 203, 103, 181, 155, 235, 41, 153, 135, 103],
  [55, 221, 11, 46, 85, 184, 220, 184, 89, 159, 111, 7, 169, 141, 102, 74, 182, 90, 167, 253, 225, 220, 10, 16, 197, 195, 79, 109, 107, 141, 219, 41],
  [8, 74, 149, 210, 20, 64, 57, 192, 211, 14, 85, 172, 133, 33, 35, 243, 129, 174, 173, 233, 67, 166, 123, 164, 7, 85, 107, 244, 16, 138, 110, 40],
  [76, 64, 134, 158, 118, 72, 209, 65, 192, 245, 102, 64, 74, 127, 183, 204, 90, 122, 222, 37, 246, 24, 186, 87, 224, 26, 125, 207, 106, 204, 180, 183],
  [152, 238, 253, 114, 145, 28, 109, 83, 204, 209, 133, 212, 177, 17, 42, 204, 71, 60, 9, 210, 98, 156, 229, 78, 41, 128, 45, 197, 29, 110, 36, 142],
  [45, 130, 0, 222, 109, 123, 123, 135, 19, 37, 25, 131, 204, 102, 7, 245, 100, 195, 24, 239, 1, 66, 206, 36, 143, 134, 4, 178, 104, 160, 52, 53],
  [199, 109, 211, 22, 110, 60, 179, 198, 245, 113, 12, 115, 66, 239, 128, 139, 236, 230, 49, 16, 125, 36, 112, 65, 171, 221, 110, 144, 239, 240, 0, 147],
  [84, 142, 7, 249, 17, 146, 126, 254, 161, 105, 3, 8, 186, 225, 84, 130, 20, 106, 132, 109, 190, 58, 6, 21, 171, 238, 77, 0, 3, 133, 252, 241],
  [89, 164, 13, 91, 60, 194, 60, 73, 233, 179, 152, 152, 218, 3, 233, 61, 63, 173, 231, 242, 28, 171, 219, 65, 88, 223, 58, 142, 22, 191, 39, 112],
  [243, 94, 227, 150, 133, 4, 251, 230, 157, 63, 58, 213, 14, 196, 98, 189, 248, 155, 77, 82, 251, 242, 15, 252, 160, 58, 35, 134, 160, 42, 108, 147],
  [59, 249, 183, 117, 105, 214, 218, 223, 147, 141, 138, 141, 38, 85, 238, 206, 178, 90, 26, 234, 140, 232, 168, 150, 107, 231, 80, 137, 245, 117, 129, 78],
  [76, 8, 93, 37, 42, 138, 116, 168, 212, 33, 192, 47, 109, 136, 160, 218, 9, 249, 122, 8, 112, 75, 194, 33, 24, 131, 214, 102, 146, 178, 211, 245],
  [203, 158, 172, 16, 76, 2, 51, 172, 85, 149, 24, 161, 255, 75, 106, 204, 130, 205, 182, 137, 142, 185, 108, 146, 230, 189, 21, 101, 66, 129, 127, 38],
  [13, 151, 129, 113, 150, 6, 39, 74, 113, 18, 115, 133, 116, 36, 141, 183, 117, 73, 147, 94, 7, 168, 159, 141, 236, 138, 224, 216, 191, 116, 238, 237],
  [109, 85, 172, 101, 23, 197, 157, 196, 82, 255, 46, 251, 15, 172, 94, 199, 68, 229, 72, 109, 18, 159, 63, 222, 223, 103, 95, 184, 182, 227, 157, 183],
  [101, 229, 172, 3, 89, 87, 235, 84, 228, 161, 10, 33, 232, 6, 132, 101, 34, 33, 228, 198, 163, 1, 90, 15, 111, 228, 95, 182, 230, 225, 39, 87],
  [174, 51, 200, 90, 176, 212, 221, 199, 55, 30, 30, 86, 183, 255, 152, 135, 97, 173, 81, 46, 162, 38, 148, 56, 125, 18, 117, 138, 53, 244, 127, 30],
  [57, 28, 160, 242, 43, 55, 255, 17, 62, 104, 54, 11, 203, 127, 118, 66, 168, 90, 155, 196, 141, 208, 205, 187, 41, 93, 58, 228, 75, 174, 8, 253],
  [132, 127, 1, 244, 251, 111, 245, 216, 206, 108, 25, 132, 236, 192, 141, 75, 156, 50, 64, 174, 120, 10, 96, 200, 147, 254, 172, 66, 32, 197, 85, 152],
  [220, 57, 0, 150, 83, 28, 43, 100, 58, 181, 6, 239, 192, 187, 132, 112, 223, 116, 178, 91, 202, 36, 202, 243, 108, 199, 223, 115, 174, 79, 222, 25],
  [56, 188, 120, 165, 80, 23, 44, 34, 116, 197, 98, 66, 39, 144, 217, 243, 38, 206, 62, 181, 153, 140, 10, 28, 178, 196, 69, 81, 71, 151, 11, 167],
  [65, 151, 114, 19, 90, 16, 100, 26, 175, 229, 87, 12, 188, 128, 79, 199, 108, 8, 40, 211, 123, 37, 102, 58, 1, 18, 189, 93, 4, 158, 21, 246],
  [113, 147, 64, 204, 105, 114, 36, 7, 135, 44, 43, 25, 190, 53, 4, 112, 62, 241, 199, 141, 184, 234, 23, 114, 89, 87, 137, 74, 46, 149, 100, 65],
  [155, 141, 24, 67, 68, 29, 137, 116, 35, 40, 102, 105, 92, 98, 103, 44, 188, 228, 171, 162, 128, 115, 163, 55, 71, 177, 70, 226, 222, 202, 19, 235],
  [251, 248, 102, 122, 12, 236, 247, 42, 146, 208, 122, 78, 95, 38, 193, 59, 180, 85, 95, 68, 84, 230, 189, 30, 190, 159, 183, 246, 97, 198, 196, 39],
  [193, 134, 142, 1, 130, 34, 69, 90, 148, 110, 128, 75, 112, 201, 146, 154, 251, 174, 86, 162, 202, 185, 247, 114, 46, 220, 242, 96, 57, 207, 160, 254]
]

/-! ## The incremental Merkle tree (`src/tree/merkle_tree.rs`)

The Rust type `MerkleTree<const DEPTH: usize>` is embedded as a structure
whose operations take the const generic `DEPTH` as an explicit `d : Nat`
argument. -/

/-- `ROOT_HISTORY_SIZE` (line 6): size of the ring buffer of recent roots. -/
def ROOT_HISTORY_SIZE : Nat := 30

/-- `MAX_DEPTH` (line 9): maximum tree depth. -/
def MAX_DEPTH : Nat := 20

/-- The errors of `src/tree/merkle_tree.rs` (lines 130-137).  The enum has
exactly these two variants; there is no `DepthIsZero` variant. -/
inductive MerkleTreeError where
  | MerkleTreeIsFull
  | DepthTooLong
deriving DecidableEq, Repr

/-- The `MerkleTree` struct (lines 12-23). -/
structure MerkleTree where
  current_root_index : Nat
  next_index : Nat
  filled_subtrees : List Hash
  roots : List Hash
deriving DecidableEq, Repr

namespace MerkleTree

/-- `hash_left_right` (lines 122-127): Blake2x256 of the 64-byte
concatenation of the two subtree hashes. -/
def hash_left_right (left right : Hash) : Hash := blake2b256 (left ++ right)

/-- `MerkleTree::new` (lines 27-44): rejects `DEPTH > MAX_DEPTH || DEPTH == 0`
with `DepthTooLong`; otherwise the roots history starts as the single entry
`ZEROS[DEPTH-1]` and `filled_subtrees` is a copy of `ZEROS[0..DEPTH+1]`
(`DEPTH + 1` entries). -/
def new (d : Nat) : Except MerkleTreeError MerkleTree :=
  if MAX_DEPTH < d ∨ d = 0 then .error .DepthTooLong
  else .ok { current_root_index := 0
             next_index := 0
             filled_subtrees := ZEROS.take (d + 1)
             roots := [ZEROS.getD (d - 1) zeroHash] }

/-- `MerkleTree::get_last_root` (lines 47-49): `self.roots[current_root_index]`.
The panicking index is embedded as `getD`; `getLastRootChecked` below makes
the panic explicit. -/
def get_last_root (t : MerkleTree) : Hash :=
  t.roots.getD t.current_root_index zeroHash

/-- `get_last_root` with the panic made explicit: `none` exactly when the
source would index out of bounds. -/
def getLastRootChecked (t : MerkleTree) : Option Hash :=
  t.roots.get? t.current_root_index

/-- One backward step of the `is_known_root` scan (lines 63-66):
`if i == 0 { i = ROOT_HISTORY_SIZE; } i -= 1;`. -/
def scanStep (i : Nat) : Nat := if i = 0 then ROOT_HISTORY_SIZE - 1 else i - 1

/-- The `loop` of `is_known_root` (lines 59-70), written with explicit fuel:
check index `i` against the buffer (missing entries read as `[0; 32]`, line
60), step backward, stop when the scan returns to `current_root_index`.
Fuel `ROOT_HISTORY_SIZE` is exactly the iteration count of the source loop
whenever `current_root_index < ROOT_HISTORY_SIZE`, which holds in every
constructed state; on the remaining states the source loop never
terminates, and the embedding returns `false`. -/
def scanLoop (roots : List Hash) (cri : Nat) (root : Hash) : Nat → Nat → Bool
  | _, 0 => false
  | i, fuel + 1 =>
    if root = roots.getD i zeroHash then true
    else
      let i' := scanStep i
      if i' = cri then false else scanLoop roots cri root i' fuel

/-- `MerkleTree::is_known_root` (lines 52-73): the all-zero sentinel is
rejected outright, otherwise the ring buffer is scanned backward from the
most recent entry. -/
def is_known_root (t : MerkleTree) (root : Hash) : Bool :=
  if root = zeroHash then false
  else scanLoop t.roots t.current_root_index root t.current_root_index ROOT_HISTORY_SIZE

/-- The store idiom used for both `filled_subtrees` (lines 94-98) and
`roots` (lines 110-114): overwrite slot `i` when it exists, otherwise push
onto the end of the vector. -/
def setOrPush (v : List Hash) (i : Nat) (x : Hash) : List Hash :=
  if i < v.length then v.set i x else v ++ [x]

/-- One iteration of the `for i in 0..DEPTH` loop of `insert` (lines
86-106), acting on the state (filled_subtrees, current_hash, current_index).
At an even position the current hash becomes the new filled subtree for the
level and is hashed against `ZEROS[i]`; at an odd position it is hashed
against the stored `filled_subtrees[i]` (a panicking index, embedded as
`getD`; `levelStepChecked` makes it explicit). -/
def levelStep (st : List Hash × Hash × Nat) (i : Nat) : List Hash × Hash × Nat :=
  let (filled, h, ci) := st
  if ci % 2 = 0 then
    (setOrPush filled i h, hash_left_right h (ZEROS.getD i zeroHash), ci / 2)
  else
    (filled, hash_left_right (filled.getD i zeroHash) h, ci / 2)

/-- `MerkleTree::insert` (lines 76-119): fail with `MerkleTreeIsFull` when
`next_index == 2^DEPTH`; otherwise fold the leaf up the levels, store the
new root at `(current_root_index + 1) % ROOT_HISTORY_SIZE`, increment
`next_index` and return the leaf's index. -/
def insert (d : Nat) (t : MerkleTree) (leaf : Hash) :
    Except MerkleTreeError (MerkleTree × Nat) :=
  if t.next_index = 2 ^ d then .error .MerkleTreeIsFull
  else
    let (filled, current_hash, _) :=
      (List.range d).foldl levelStep (t.filled_subtrees, leaf, t.next_index)
    let cri := (t.current_root_index + 1) % ROOT_HISTORY_SIZE
    .ok ({ current_root_index := cri
           next_index := t.next_index + 1
           filled_subtrees := filled
           roots := setOrPush t.roots cri current_hash }, t.next_index)

/-- The root hash computed by a (successful) `insert`: the `current_hash`
left by the level loop, i.e. the value stored into the roots history. -/
def insertResultHash (d : Nat) (t : MerkleTree) (leaf : Hash) : Hash :=
  ((List.range d).foldl levelStep (t.filled_subtrees, leaf, t.next_index)).2.1

/-- Sequential insertion of a list of leaves, recording the returned leaf
indices and the produced roots; fails on the first failing `insert`. -/
def insertTrace (d : Nat) : MerkleTree → List Hash →
    Except MerkleTreeError (MerkleTree × List Nat × List Hash)
  | t, [] => .ok (t, [], [])
  | t, leaf :: ls =>
    match insert d t leaf with
    | .error e => .error e
    | .ok (t1, idx) =>
      match insertTrace d t1 ls with
      | .error e => .error e
      | .ok (t', idxs, rs) => .ok (t', idx :: idxs, insertResultHash d t leaf :: rs)

/-- Sequential insertion where a failing `insert` leaves the tree unchanged
(the source returns `Err` before any mutation), modelling an arbitrary
sequence of `insert` calls on a tree. -/
def applyInserts (d : Nat) (t : MerkleTree) (leaves : List Hash) : MerkleTree :=
  leaves.foldl (fun t leaf =>
    match insert d t leaf with
    | .error _ => t
    | .ok (t', _) => t') t

/-- `levelStep` with every panicking access made explicit: `none` when the
source iteration would index out of bounds (`filled_subtrees[i]` on the odd
branch, `ZEROS[i]` on the even branch). -/
def levelStepChecked (st : Option (List Hash × Hash × Nat)) (i : Nat) :
    Option (List Hash × Hash × Nat) :=
  match st with
  | none => none
  | some (filled, h, ci) =>
    if ci % 2 = 0 then
      match ZEROS.get? i with
      | none => none
      | some z => some (setOrPush filled i h, hash_left_right h z, ci / 2)
    else
      match filled.get? i with
      | none => none
      | some f => some (filled, hash_left_right f h, ci / 2)

/-- `insert` with every panicking access made explicit: `none` exactly when
some iteration of the source loop would panic. -/
def insertChecked (d : Nat) (t : MerkleTree) (leaf : Hash) :
    Option (Except MerkleTreeError (MerkleTree × Nat)) :=
  if t.next_index = 2 ^ d then some (.error .MerkleTreeIsFull)
  else
    match (List.range d).foldl levelStepChecked (some (t.filled_subtrees, leaf, t.next_index)) with
    | none => none
    | some (filled, current_hash, _) =>
      let cri := (t.current_root_index + 1) % ROOT_HISTORY_SIZE
      some (.ok ({ current_root_index := cri
                   next_index := t.next_index + 1
                   filled_subtrees := filled
                   roots := setOrPush t.roots cri current_hash }, t.next_index))

/-- The structural invariant of every tree built by `new` and maintained by
`insert`: `filled_subtrees` has exactly `d + 1` entries (`new` copies
`ZEROS[0..DEPTH+1]`), the roots history is non-empty, holds at most
`ROOT_HISTORY_SIZE` entries, and `current_root_index` is a valid index into
it. -/
def Inv (d : Nat) (t : MerkleTree) : Prop :=
  t.filled_subtrees.length = d + 1 ∧
  t.current_root_index < t.roots.length ∧
  t.roots.length ≤ ROOT_HISTORY_SIZE

instance (d : Nat) (t : MerkleTree) : Decidable (Inv d t) := by
  unfold Inv; infer_instance

/-- The membership test described by the specification of `is_known_root`:
reject the all-zero sentinel, otherwise scan the ring buffer from the most
recent entry backward up to `ROOT_HISTORY_SIZE` entries inclusive of
wrap-around, i.e. positions `(current_root_index + ROOT_HISTORY_SIZE - s) %
ROOT_HISTORY_SIZE` for `s < ROOT_HISTORY_SIZE`. -/
def knownRootSpec (t : MerkleTree) (root : Hash) : Prop :=
  root ≠ zeroHash ∧
  ∃ s < ROOT_HISTORY_SIZE,
    t.roots.getD ((t.current_root_index + ROOT_HISTORY_SIZE - s) % ROOT_HISTORY_SIZE) zeroHash
      = root

end MerkleTree

/-! ## The Slushie contract (`src/lib.rs`)

The contract stores a Merkle tree of depth `MAX_DEPTH`, the immutable
`deposit_size`, and the used-nullifiers registry.  The registry is an ink
`Mapping<PoseidonHash, bool>` into which only `insert(commitment, &true)`
is ever written, so it is embedded as the list of marked keys
(`get(c).is_some()` is list membership).  The external ledger collaborator
(`self.env()`) is an explicit input: the value transferred with the current
call, the contract's balance, and whether an attempted outgoing transfer
succeeds (it may fail for external reasons such as recipient rejection).
Operations return the updated contract state together with the `Result`,
mirroring `&mut self`; every `Err` return in the source happens before any
state write, which the theorems below make explicit. -/

namespace Slushie

/-- The contract error enum of `src/lib.rs` (lines 76-86). -/
inductive Error where
  | DepositFailure
  | MerkleTreeIsFull
  | MerkleTreeInvalidDepth
  | InvalidTransferredAmount
  | InvalidDepositSize
  | InsufficientFunds
  | NullifierAlreadyUsed
  | UnknownNullifier
  | UnknownRoot
deriving DecidableEq, Repr

/-- The `From<MerkleTreeError>` conversion (lines 88-96) restricted to the
two variants the tree error enum of `src/tree/merkle_tree.rs` actually has. -/
def errorFrom : MerkleTreeError → Error
  | .MerkleTreeIsFull => .MerkleTreeIsFull
  | .DepthTooLong => .MerkleTreeInvalidDepth

/-- The external ledger collaborator visible through `self.env()`. -/
structure LedgerEnv where
  /-- `self.env().balance()`: the contract's balance. -/
  balance : Nat
  /-- `self.env().transferred_value()`: value attached to the current call. -/
  transferred_value : Nat
  /-- Whether `self.env().transfer(caller, deposit_size)` succeeds when
  attempted. -/
  transfer_ok : Bool
deriving DecidableEq, Repr

/-- The `Slushie` storage struct (lines 47-53), with the tree depth fixed to
`MAX_DEPTH` as in the source. -/
structure State where
  merkle_tree : MerkleTree
  deposit_size : Nat
  used_nullifiers : List Hash
deriving DecidableEq, Repr

/-- `Slushie::deposit` (lines 124-138): reject a transferred value different
from `deposit_size` before touching any state, then insert the commitment
and return the new root. -/
def deposit (s : State) (env : LedgerEnv) (commitment : Hash) :
    State × Except Error Hash :=
  if env.transferred_value ≠ s.deposit_size then (s, .error .InvalidTransferredAmount)
  else
    match MerkleTree.insert MAX_DEPTH s.merkle_tree commitment with
    | .error e => (s, .error (errorFrom e))
    | .ok (t', _) =>
      let s' := { s with merkle_tree := t' }
      (s', .ok s'.merkle_tree.get_last_root)

/-- `Slushie::withdraw` (lines 144-175): the four checks in source order —
known root, sufficient contract balance, unused nullifier, successful
transfer (the source maps a failed transfer to `InvalidDepositSize`) — and
only then the registry write and the balance change. -/
def withdraw (s : State) (env : LedgerEnv) (commitment root : Hash) :
    State × LedgerEnv × Except Error Unit :=
  if ¬ s.merkle_tree.is_known_root root then (s, env, .error .UnknownRoot)
  else if env.balance < s.deposit_size then (s, env, .error .InsufficientFunds)
  else if commitment ∈ s.used_nullifiers then (s, env, .error .NullifierAlreadyUsed)
  else if ¬ env.transfer_ok then (s, env, .error .InvalidDepositSize)
  else ({ s with used_nullifiers := commitment :: s.used_nullifiers },
        { env with balance := env.balance - s.deposit_size },
        .ok ())

/-- `Slushie::get_root_hash` (lines 179-181). -/
def get_root_hash (s : State) : Hash := s.merkle_tree.get_last_root

/-- A state-changing call to the contract: `deposit` or `withdraw` with
arbitrary arguments and an arbitrary external environment. -/
inductive Op where
  | deposit (env : LedgerEnv) (commitment : Hash)
  | withdraw (env : LedgerEnv) (commitment root : Hash)

/-- The contract state after executing one call. -/
def stepOp (s : State) (op : Op) : State :=
  match op with
  | .deposit env c => (deposit s env c).1
  | .withdraw env c root => (withdraw s env c root).1

end Slushie

/-! ## Theorems -/

deriving instance DecidableEq for Except

/-- Claim C1: withdraw is all-or-nothing.  Whenever `withdraw` returns an
error — `UnknownRoot`, `InsufficientFunds`, `NullifierAlreadyUsed`, or the
transfer-failure error `InvalidDepositSize` — the contract state (merkle
tree, used-nullifiers registry and `deposit_size` alike) and the external
ledger are returned unchanged. -/
theorem withdraw_all_or_nothing (s : Slushie.State) (env : Slushie.LedgerEnv)
    (commitment root : Hash) (e : Slushie.Error)
    (h : (Slushie.withdraw s env commitment root).2.2 = .error e) :
    (Slushie.withdraw s env commitment root).1 = s ∧
    (Slushie.withdraw s env commitment root).2.1 = env := by
  unfold Slushie.withdraw at h ⊢
  split_ifs at h ⊢ <;> simp_all

/-- Witness for C1: on a freshly constructed contract, withdrawing against
the all-zero root fails with `UnknownRoot` and changes nothing. -/
theorem withdraw_all_or_nothing_witness :
    (Slushie.withdraw ⟨⟨0, 0, ZEROS.take 21, [ZEROS.getD 19 zeroHash]⟩, 13, []⟩
        ⟨100, 0, true⟩ (ZEROS.getD 0 zeroHash) zeroHash).2.2
      = .error Slushie.Error.UnknownRoot ∧
    (Slushie.withdraw ⟨⟨0, 0, ZEROS.take 21, [ZEROS.getD 19 zeroHash]⟩, 13, []⟩
        ⟨100, 0, true⟩ (ZEROS.getD 0 zeroHash) zeroHash).1
      = ⟨⟨0, 0, ZEROS.take 21, [ZEROS.getD 19 zeroHash]⟩, 13, []⟩ ∧
    (Slushie.withdraw ⟨⟨0, 0, ZEROS.take 21, [ZEROS.getD 19 zeroHash]⟩, 13, []⟩
        ⟨100, 0, true⟩ (ZEROS.getD 0 zeroHash) zeroHash).2.1
      = ⟨100, 0, true⟩ := by
  refine ⟨by decide, ?_⟩
  exact withdraw_all_or_nothing _ _ _ _ Slushie.Error.UnknownRoot (by decide)

/-- Claim C6: the deposit amount guard.  A call whose transferred value
differs from `deposit_size` fails with `InvalidTransferredAmount`, mutates
no state, and in particular leaves the root unchanged. -/
theorem deposit_amount_guard (s : Slushie.State) (env : Slushie.LedgerEnv)
    (commitment : Hash) (h : env.transferred_value ≠ s.deposit_size) :
    Slushie.deposit s env commitment = (s, .error .InvalidTransferredAmount) ∧
    Slushie.get_root_hash (Slushie.deposit s env commitment).1 = Slushie.get_root_hash s := by
  unfold Slushie.deposit
  rw [if_pos h]
  exact ⟨rfl, rfl⟩

/-- Witness for C6, at the spec's concrete numbers: transferred value 77
against `deposit_size = 13`. -/
theorem deposit_amount_guard_witness :
    Slushie.deposit ⟨⟨0, 0, ZEROS.take 21, [ZEROS.getD 19 zeroHash]⟩, 13, []⟩
        ⟨100, 77, true⟩ (ZEROS.getD 0 zeroHash)
      = (⟨⟨0, 0, ZEROS.take 21, [ZEROS.getD 19 zeroHash]⟩, 13, []⟩,
         .error .InvalidTransferredAmount) ∧
    Slushie.get_root_hash
        (Slushie.deposit ⟨⟨0, 0, ZEROS.take 21, [ZEROS.getD 19 zeroHash]⟩, 13, []⟩
          ⟨100, 77, true⟩ (ZEROS.getD 0 zeroHash)).1
      = Slushie.get_root_hash ⟨⟨0, 0, ZEROS.take 21, [ZEROS.getD 19 zeroHash]⟩, 13, []⟩ :=
  deposit_amount_guard _ _ _ (by decide)

/-- Counterexample for claim C7: the error enum of `src/tree/merkle_tree.rs`
(lines 131-137) has no `DepthIsZero` variant; constructing a tree of depth 0
fails with `DepthTooLong` (line 29), not with a `DepthIsZero` error as the
claim states. -/
theorem new_depth_zero_returns_DepthTooLong :
    MerkleTree.new 0 = .error .DepthTooLong := rfl

/-- Claim C7 (amended): `new` validates `1 ≤ depth ≤ MAX_DEPTH`; for
`depth > MAX_DEPTH` and likewise for `depth = 0` it fails with
`DepthTooLong` — the enum's only construction error — and no tree is
created; for every valid depth a tree is created. -/
theorem new_validates_depth (d : Nat) :
    ((MAX_DEPTH < d ∨ d = 0) → MerkleTree.new d = .error .DepthTooLong) ∧
    (1 ≤ d → d ≤ MAX_DEPTH → ∃ t, MerkleTree.new d = .ok t) := by
  constructor
  · intro h
    unfold MerkleTree.new
    rw [if_pos h]
  · intro h1 h2
    refine ⟨⟨0, 0, ZEROS.take (d + 1), [ZEROS.getD (d - 1) zeroHash]⟩, ?_⟩
    unfold MerkleTree.new
    rw [if_neg (by omega)]

/-- Witness for C7 (amended): depth 0 and depth 21 are rejected with
`DepthTooLong`; depth 5 constructs a tree. -/
theorem new_validates_depth_witness :
    MerkleTree.new 0 = .error .DepthTooLong ∧
    MerkleTree.new 21 = .error .DepthTooLong ∧
    ∃ t, MerkleTree.new 5 = .ok t :=
  ⟨(new_validates_depth 0).1 (Or.inr rfl),
   (new_validates_depth 21).1 (Or.inl (by decide)),
   (new_validates_depth 5).2 (by decide) (by decide)⟩

/-- Claim C8: constructor initialization.  For every valid depth, the fresh
tree copies the empty-subtree constants into `filled_subtrees`, its roots
history consists of the single slot `ZEROS[d-1]` (so every slot of the
history equals the empty-tree root), both counters are zero, and
`get_last_root` returns `ZEROS[d-1]`. -/
theorem new_initializes (d : Nat) (t : MerkleTree) (h : MerkleTree.new d = .ok t) :
    (∀ i < d, t.filled_subtrees.getD i zeroHash = ZEROS.getD i zeroHash) ∧
    t.roots = [ZEROS.getD (d - 1) zeroHash] ∧
    (∀ j < t.roots.length, t.roots.getD j zeroHash = ZEROS.getD (d - 1) zeroHash) ∧
    t.current_root_index = 0 ∧
    t.next_index = 0 ∧
    t.get_last_root = ZEROS.getD (d - 1) zeroHash := by
  unfold MerkleTree.new at h
  split_ifs at h
  injection h with h
  subst h
  refine ⟨?_, rfl, ?_, rfl, rfl, rfl⟩
  · intro i hi
    simp only [List.getD_eq_getD_get?, List.get?_take (by omega : i < d + 1)]
  · intro j hj
    have hj0 : j = 0 := by simpa using hj
    subst hj0
    rfl

/-- Witness for C8 at depth 3. -/
theorem new_initializes_witness :
    (∀ i < 3, (ZEROS.take 4).getD i zeroHash = ZEROS.getD i zeroHash) ∧
    ([ZEROS.getD 2 zeroHash] : List Hash) = [ZEROS.getD 2 zeroHash] ∧
    (∀ j < ([ZEROS.getD 2 zeroHash] : List Hash).length,
      ([ZEROS.getD 2 zeroHash] : List Hash).getD j zeroHash = ZEROS.getD 2 zeroHash) ∧
    (0 : Nat) = 0 ∧ (0 : Nat) = 0 ∧
    MerkleTree.get_last_root ⟨0, 0, ZEROS.take 4, [ZEROS.getD 2 zeroHash]⟩
      = ZEROS.getD 2 zeroHash :=
  new_initializes 3 ⟨0, 0, ZEROS.take 4, [ZEROS.getD 2 zeroHash]⟩ (by rfl)

/-- Unfolding lemma for a successful `insert`: the capacity check is the
only failure, and on success the tree fields are updated exactly as in the
source (lines 83-118). -/
theorem MerkleTree.insert_eq (d : Nat) (t : MerkleTree) (leaf : Hash)
    (h : ¬ t.next_index = 2 ^ d) :
    MerkleTree.insert d t leaf =
      .ok ({ current_root_index := (t.current_root_index + 1) % ROOT_HISTORY_SIZE
             next_index := t.next_index + 1
             filled_subtrees :=
               ((List.range d).foldl MerkleTree.levelStep (t.filled_subtrees, leaf, t.next_index)).1
             roots := MerkleTree.setOrPush t.roots
               ((t.current_root_index + 1) % ROOT_HISTORY_SIZE)
               (MerkleTree.insertResultHash d t leaf) }, t.next_index) := by
  unfold MerkleTree.insert MerkleTree.insertResultHash
  rw [if_neg h]

/-- A failing `insert` is exactly the capacity check. -/
theorem MerkleTree.insert_full (d : Nat) (t : MerkleTree) (leaf : Hash)
    (h : t.next_index = 2 ^ d) :
    MerkleTree.insert d t leaf = .error .MerkleTreeIsFull := by
  unfold MerkleTree.insert
  rw [if_pos h]

/-- Successive successful insertions return consecutive leaf indices and
advance `next_index` accordingly. -/
theorem MerkleTree.insertTrace_ok (d : Nat) :
    ∀ (leaves : List Hash) (t : MerkleTree),
      t.next_index + leaves.length ≤ 2 ^ d →
      ∃ t' rs, MerkleTree.insertTrace d t leaves
          = .ok (t', List.range' t.next_index leaves.length, rs) ∧
        t'.next_index = t.next_index + leaves.length
  | [], t, _ => ⟨t, [], rfl, rfl⟩
  | leaf :: ls, t, h => by
    have hne : ¬ t.next_index = 2 ^ d := by
      simp only [List.length_cons] at h; omega
    obtain ⟨t', rs, htr, hn⟩ :=
      MerkleTree.insertTrace_ok d ls
        { current_root_index := (t.current_root_index + 1) % ROOT_HISTORY_SIZE
          next_index := t.next_index + 1
          filled_subtrees :=
            ((List.range d).foldl MerkleTree.levelStep (t.filled_subtrees, leaf, t.next_index)).1
          roots := MerkleTree.setOrPush t.roots
            ((t.current_root_index + 1) % ROOT_HISTORY_SIZE)
            (MerkleTree.insertResultHash d t leaf) }
        (by simp only [List.length_cons] at h ⊢; omega)
    refine ⟨t', MerkleTree.insertResultHash d t leaf :: rs, ?_, ?_⟩
    · unfold MerkleTree.insertTrace
      rw [MerkleTree.insert_eq d t leaf hne]
      simp only [htr, List.range'_succ, List.length_cons]
    · simp only [hn, List.length_cons]; omega

/-- Claim C3: insert counting and capacity.  For every depth in
`[1, MAX_DEPTH]` and every sequence of at most `2 ^ d` leaves, inserting
them into a fresh tree succeeds, returns the indices `0, 1, …, n-1` in
order (so the `n`-th insertion returns `n - 1`), and leaves
`next_index = n`; when exactly `2 ^ d` leaves have been inserted every
further insertion fails with `MerkleTreeIsFull`; and on any tree the
capacity error occurs exactly when `next_index = 2 ^ d` — an insertion with
`next_index < 2 ^ d` always succeeds. -/
theorem insert_counting_capacity (d : Nat) (h1 : 1 ≤ d) (h2 : d ≤ MAX_DEPTH) :
    (∀ t0 leaves, MerkleTree.new d = .ok t0 → leaves.length ≤ 2 ^ d →
      ∃ t rs, MerkleTree.insertTrace d t0 leaves = .ok (t, List.range leaves.length, rs) ∧
        t.next_index = leaves.length ∧
        (leaves.length = 2 ^ d →
          ∀ leaf, MerkleTree.insert d t leaf = .error .MerkleTreeIsFull)) ∧
    (∀ (u : MerkleTree) (leaf : Hash),
      (u.next_index < 2 ^ d → ∃ u', MerkleTree.insert d u leaf = .ok (u', u.next_index)) ∧
      (u.next_index = 2 ^ d → MerkleTree.insert d u leaf = .error .MerkleTreeIsFull)) := by
  constructor
  · intro t0 leaves h0 hlen
    have ht0 : t0.next_index = 0 := by
      unfold MerkleTree.new at h0
      split_ifs at h0
      injection h0 with h0
      subst h0
      rfl
    obtain ⟨t, rs, htr, hn⟩ := MerkleTree.insertTrace_ok d leaves t0 (by omega)
    refine ⟨t, rs, ?_, by omega, ?_⟩
    · rw [htr, ht0, List.range_eq_range']
    · intro hfull leaf
      exact MerkleTree.insert_full d t leaf (by omega)
  · intro u leaf
    constructor
    · intro hlt
      exact ⟨_, MerkleTree.insert_eq d u leaf (by omega)⟩
    · intro heq
      exact MerkleTree.insert_full d u leaf heq

/-- Witness for C3: a fresh depth-1 tree accepts exactly two insertions,
returning indices 0 and 1, and the third insertion fails. -/
theorem insert_counting_capacity_witness :
    ∃ t rs,
      MerkleTree.insertTrace 1 ⟨0, 0, ZEROS.take 2, [ZEROS.getD 0 zeroHash]⟩
          [zeroHash, zeroHash] = .ok (t, List.range 2, rs) ∧
      t.next_index = 2 ∧
      (2 = 2 ^ 1 → ∀ leaf, MerkleTree.insert 1 t leaf = .error .MerkleTreeIsFull) :=
  (insert_counting_capacity 1 (by decide) (by decide)).1
    ⟨0, 0, ZEROS.take 2, [ZEROS.getD 0 zeroHash]⟩ [zeroHash, zeroHash] (by rfl) (by decide)

/-- An in-bounds `get?` returns the `getD` value. -/
theorem getq_eq_some_getD {α : Type} (l : List α) (i : Nat) (d : α)
    (h : i < l.length) : l.get? i = some (l.getD i d) := by
  rw [List.getD_eq_getElem l d h, List.get?_eq_getElem?, List.getElem?_eq_getElem h]

/-- `levelStep` preserves the length of `filled_subtrees` whenever the level
index is within bounds (the store then overwrites instead of pushing). -/
theorem MerkleTree.levelStep_length (st : List Hash × Hash × Nat) (i : Nat)
    (h : i < st.1.length) : (MerkleTree.levelStep st i).1.length = st.1.length := by
  obtain ⟨filled, hsh, ci⟩ := st
  simp only [MerkleTree.levelStep, MerkleTree.setOrPush]
  split_ifs with h1 h2 <;> simp_all

/-- On in-bounds level indices the checked level loop agrees with the plain
one (no iteration panics) and preserves the length of `filled_subtrees`. -/
theorem MerkleTree.foldLevel_agree :
    ∀ (L : List Nat) (filled : List Hash) (hsh : Hash) (ci : Nat),
      (∀ i ∈ L, i < filled.length ∧ i < ZEROS.length) →
      List.foldl MerkleTree.levelStepChecked (some (filled, hsh, ci)) L
          = some (List.foldl MerkleTree.levelStep (filled, hsh, ci) L) ∧
        (List.foldl MerkleTree.levelStep (filled, hsh, ci) L).1.length = filled.length
  | [], _, _, _, _ => ⟨rfl, rfl⟩
  | i :: L, filled, hsh, ci, hb => by
    have hbi := hb i (List.mem_cons_self i L)
    have hstep : MerkleTree.levelStepChecked (some (filled, hsh, ci)) i
        = some (MerkleTree.levelStep (filled, hsh, ci) i) := by
      simp only [MerkleTree.levelStepChecked, MerkleTree.levelStep]
      by_cases hc : ci % 2 = 0
      · rw [if_pos hc, if_pos hc, getq_eq_some_getD ZEROS i zeroHash hbi.2]
      · rw [if_neg hc, if_neg hc, getq_eq_some_getD filled i zeroHash hbi.1]
    have hlen : (MerkleTree.levelStep (filled, hsh, ci) i).1.length = filled.length :=
      MerkleTree.levelStep_length _ i hbi.1
    obtain ⟨ih1, ih2⟩ := MerkleTree.foldLevel_agree L
      (MerkleTree.levelStep (filled, hsh, ci) i).1
      (MerkleTree.levelStep (filled, hsh, ci) i).2.1
      (MerkleTree.levelStep (filled, hsh, ci) i).2.2
      (by
        rw [hlen]
        exact fun j hj => hb j (List.mem_cons_of_mem i hj))
    refine ⟨?_, ?_⟩
    · rw [List.foldl_cons, List.foldl_cons, hstep]
      exact ih1
    · rw [List.foldl_cons]
      rw [ih2, hlen]

/-- A fresh tree satisfies the structural invariant. -/
theorem MerkleTree.new_inv (d : Nat) (t : MerkleTree) (hd : d ≤ MAX_DEPTH)
    (h : MerkleTree.new d = .ok t) : MerkleTree.Inv d t := by
  unfold MerkleTree.new at h
  split_ifs at h
  injection h with h
  subst h
  refine ⟨?_, by simp, by simp [ROOT_HISTORY_SIZE]⟩
  simp only [List.length_take]
  have hz : ZEROS.length = 21 := rfl
  have hm : MAX_DEPTH = 20 := rfl
  omega

/-- A successful `insert` preserves the structural invariant. -/
theorem MerkleTree.insert_inv (d : Nat) (t t' : MerkleTree) (leaf : Hash) (idx : Nat)
    (hd : d ≤ MAX_DEPTH) (hInv : MerkleTree.Inv d t)
    (h : MerkleTree.insert d t leaf = .ok (t', idx)) : MerkleTree.Inv d t' := by
  obtain ⟨hfill, hcri, hlen⟩ := hInv
  have hne : ¬ t.next_index = 2 ^ d := by
    intro hfull
    rw [MerkleTree.insert_full d t leaf hfull] at h
    exact Except.noConfusion h
  rw [MerkleTree.insert_eq d t leaf hne] at h
  injection h with h
  have ht' := congrArg Prod.fst h
  simp only at ht'
  subst ht'
  refine ⟨?_, ?_, ?_⟩
  · have := (MerkleTree.foldLevel_agree (List.range d) t.filled_subtrees leaf t.next_index
      (by
        intro i hi
        rw [List.mem_range] at hi
        unfold MAX_DEPTH at hd
        constructor
        · omega
        · show i < ZEROS.length
          have : ZEROS.length = 21 := by rfl
          omega)).2
    simp only [this, hfill]
  · unfold MerkleTree.setOrPush ROOT_HISTORY_SIZE at *
    split_ifs with hcase
    · simpa using hcase
    · simp only [List.length_append, List.length_cons, List.length_nil]
      omega
  · unfold MerkleTree.setOrPush ROOT_HISTORY_SIZE at *
    split_ifs with hcase
    · simpa using hlen
    · simp only [List.length_append, List.length_cons, List.length_nil]
      omega

/-- Under the invariant, the checked `insert` agrees with the plain one:
no iteration of the level loop panics. -/
theorem MerkleTree.insertChecked_agree (d : Nat) (t : MerkleTree) (leaf : Hash)
    (hd : d ≤ MAX_DEPTH) (hInv : MerkleTree.Inv d t) :
    MerkleTree.insertChecked d t leaf = some (MerkleTree.insert d t leaf) := by
  obtain ⟨hfill, hcri, hlen⟩ := hInv
  unfold MerkleTree.insertChecked MerkleTree.insert
  by_cases hfull : t.next_index = 2 ^ d
  · rw [if_pos hfull, if_pos hfull]
  · rw [if_neg hfull, if_neg hfull]
    rw [(MerkleTree.foldLevel_agree (List.range d) t.filled_subtrees leaf t.next_index
      (by
        intro i hi
        rw [List.mem_range] at hi
        unfold MAX_DEPTH at hd
        constructor
        · omega
        · show i < ZEROS.length
          have : ZEROS.length = 21 := by rfl
          omega)).1]

/-- Under the invariant, `get_last_root` reads an existing slot: the
panicking index of line 48 is in bounds. -/
theorem MerkleTree.getLastRoot_agree (d : Nat) (t : MerkleTree) (hInv : MerkleTree.Inv d t) :
    MerkleTree.getLastRootChecked t = some (MerkleTree.get_last_root t) := by
  unfold MerkleTree.getLastRootChecked MerkleTree.get_last_root
  exact getq_eq_some_getD t.roots t.current_root_index zeroHash hInv.2.1

/-- The invariant holds after any sequence of `insert` calls on a fresh
tree (a failing call returns before mutating, leaving the tree unchanged). -/
theorem MerkleTree.applyInserts_inv (d : Nat) (hd : d ≤ MAX_DEPTH) :
    ∀ (leaves : List Hash) (t : MerkleTree), MerkleTree.Inv d t →
      MerkleTree.Inv d (MerkleTree.applyInserts d t leaves)
  | [], t, hInv => hInv
  | leaf :: ls, t, hInv => by
    unfold MerkleTree.applyInserts
    rw [List.foldl_cons]
    show MerkleTree.Inv d (MerkleTree.applyInserts d
      (match MerkleTree.insert d t leaf with
        | .error _ => t
        | .ok (t', _) => t') ls)
    rcases hins : MerkleTree.insert d t leaf with e | ⟨t', idx⟩
    · exact MerkleTree.applyInserts_inv d hd ls t hInv
    · exact MerkleTree.applyInserts_inv d hd ls t'
        (MerkleTree.insert_inv d t t' leaf idx hd hInv hins)

/-- Claim C10: panic-freedom of the tree.  Starting from any tree built by
`new` with a valid depth and applying any sequence of `insert` calls, the
structural invariant holds — `filled_subtrees` keeps exactly `d + 1`
entries and the roots history keeps between 1 and `ROOT_HISTORY_SIZE`
entries with `current_root_index` a valid index into it — and consequently
every vector index taken by `insert` and `get_last_root` is in bounds: the
checked variants, in which an out-of-bounds access is an explicit `none`,
agree with the plain functions.  (`is_known_root` accesses the buffer only
through `get(i).unwrap_or`, which never panics.) -/
theorem tree_never_panics (d : Nat) (t0 : MerkleTree) (leaves : List Hash)
    (h1 : 1 ≤ d) (h2 : d ≤ MAX_DEPTH) (h0 : MerkleTree.new d = .ok t0) :
    MerkleTree.Inv d (MerkleTree.applyInserts d t0 leaves) ∧
    (∀ leaf, MerkleTree.insertChecked d (MerkleTree.applyInserts d t0 leaves) leaf
        = some (MerkleTree.insert d (MerkleTree.applyInserts d t0 leaves) leaf)) ∧
    MerkleTree.getLastRootChecked (MerkleTree.applyInserts d t0 leaves)
        = some (MerkleTree.get_last_root (MerkleTree.applyInserts d t0 leaves)) := by
  have hInv := MerkleTree.applyInserts_inv d h2 leaves t0 (MerkleTree.new_inv d t0 h2 h0)
  exact ⟨hInv,
    fun leaf => MerkleTree.insertChecked_agree d _ leaf h2 hInv,
    MerkleTree.getLastRoot_agree d _ hInv⟩

/-- Witness for C10: depth 1, two insertions of the zero leaf. -/
theorem tree_never_panics_witness :
    MerkleTree.Inv 1
      (MerkleTree.applyInserts 1 ⟨0, 0, ZEROS.take 2, [ZEROS.getD 0 zeroHash]⟩
        [zeroHash, zeroHash]) ∧
    (∀ leaf, MerkleTree.insertChecked 1
        (MerkleTree.applyInserts 1 ⟨0, 0, ZEROS.take 2, [ZEROS.getD 0 zeroHash]⟩
          [zeroHash, zeroHash]) leaf
        = some (MerkleTree.insert 1
            (MerkleTree.applyInserts 1 ⟨0, 0, ZEROS.take 2, [ZEROS.getD 0 zeroHash]⟩
              [zeroHash, zeroHash]) leaf)) ∧
    MerkleTree.getLastRootChecked
        (MerkleTree.applyInserts 1 ⟨0, 0, ZEROS.take 2, [ZEROS.getD 0 zeroHash]⟩
          [zeroHash, zeroHash])
        = some (MerkleTree.get_last_root
            (MerkleTree.applyInserts 1 ⟨0, 0, ZEROS.take 2, [ZEROS.getD 0 zeroHash]⟩
              [zeroHash, zeroHash])) :=
  tree_never_panics 1 ⟨0, 0, ZEROS.take 2, [ZEROS.getD 0 zeroHash]⟩ [zeroHash, zeroHash]
    (by decide) (by decide) (by rfl)

/-- Characterization of the bounded backward scan: starting at position
`i`, the loop checks the positions `(i + 30 - s) % 30` for
`s = 0, 1, …, (i + 30 - ((cri + 1) % 30)) % 30` — that is, it walks
backward (wrapping at 0) until it returns to `cri` — and reports whether
any checked slot holds `root`. -/
theorem MerkleTree.scanLoop_iff (roots : List Hash) (cri : Nat) (root : Hash) :
    ∀ (fuel i : Nat), i < 30 → cri < 30 →
      (i + 30 - ((cri + 1) % 30)) % 30 + 1 ≤ fuel →
      (MerkleTree.scanLoop roots cri root i fuel = true ↔
        ∃ s, s ≤ (i + 30 - ((cri + 1) % 30)) % 30 ∧
          roots.getD ((i + 30 - s) % 30) zeroHash = root)
  | 0, i, hi, hc, hf => absurd hf (by omega)
  | fuel + 1, i, hi, hc, hf => by
    have hstep : (i = 0 ∧ MerkleTree.scanStep i = 29) ∨
        (1 ≤ i ∧ MerkleTree.scanStep i = i - 1) := by
      unfold MerkleTree.scanStep ROOT_HISTORY_SIZE
      split_ifs with h0
      · exact Or.inl ⟨h0, rfl⟩
      · exact Or.inr ⟨by omega, rfl⟩
    by_cases hr : root = roots.getD i zeroHash
    · constructor
      · intro _
        refine ⟨0, Nat.zero_le _, ?_⟩
        rw [(by omega : (i + 30 - 0) % 30 = i)]
        exact hr.symm
      · intro _
        show (if root = roots.getD i zeroHash then true
          else if MerkleTree.scanStep i = cri then false
          else MerkleTree.scanLoop roots cri root (MerkleTree.scanStep i) fuel) = true
        rw [if_pos hr]
    · by_cases hstop : MerkleTree.scanStep i = cri
      · have hD : (i + 30 - ((cri + 1) % 30)) % 30 = 0 := by
          rcases hstep with ⟨h1, h2⟩ | ⟨h1, h2⟩ <;> omega
        have hfalse : MerkleTree.scanLoop roots cri root i (fuel + 1) = false := by
          show (if root = roots.getD i zeroHash then true
            else if MerkleTree.scanStep i = cri then false
            else MerkleTree.scanLoop roots cri root (MerkleTree.scanStep i) fuel) = false
          rw [if_neg hr, if_pos hstop]
        rw [hfalse]
        constructor
        · intro hcontra
          exact absurd hcontra (by simp)
        · rintro ⟨s, hs, heq⟩
          exfalso
          have hs0 : s = 0 := by omega
          subst hs0
          refine hr ?_
          rw [← heq, (by omega : (i + 30 - 0) % 30 = i)]
      · have hi' : MerkleTree.scanStep i < 30 := by
          rcases hstep with ⟨h1, h2⟩ | ⟨h1, h2⟩ <;> omega
        have hD : (i + 30 - ((cri + 1) % 30)) % 30
            = (MerkleTree.scanStep i + 30 - ((cri + 1) % 30)) % 30 + 1 := by
          rcases hstep with ⟨h1, h2⟩ | ⟨h1, h2⟩ <;> omega
        have hLHS : MerkleTree.scanLoop roots cri root i (fuel + 1)
            = MerkleTree.scanLoop roots cri root (MerkleTree.scanStep i) fuel := by
          show (if root = roots.getD i zeroHash then true
            else if MerkleTree.scanStep i = cri then false
            else MerkleTree.scanLoop roots cri root (MerkleTree.scanStep i) fuel)
            = MerkleTree.scanLoop roots cri root (MerkleTree.scanStep i) fuel
          rw [if_neg hr, if_neg hstop]
        rw [hLHS,
          MerkleTree.scanLoop_iff roots cri root fuel (MerkleTree.scanStep i) hi' hc (by omega)]
        constructor
        · rintro ⟨s, hs, heq⟩
          refine ⟨s + 1, by omega, ?_⟩
          rw [(by omega : (i + 30 - (s + 1)) % 30 = (MerkleTree.scanStep i + 30 - s) % 30)]
          exact heq
        · rintro ⟨s, hs, heq⟩
          rcases Nat.eq_zero_or_pos s with hs0 | hspos
          · subst hs0
            exfalso
            refine hr ?_
            rw [← heq, (by omega : (i + 30 - 0) % 30 = i)]
          · obtain ⟨s', rfl⟩ : ∃ s', s = s' + 1 := ⟨s - 1, by omega⟩
            refine ⟨s', by omega, ?_⟩
            rw [(by omega : (MerkleTree.scanStep i + 30 - s') % 30 = (i + 30 - (s' + 1)) % 30)]
            exact heq

/-- On any state with `current_root_index < ROOT_HISTORY_SIZE` (all
constructed states), `is_known_root` holds exactly when the root is not the
sentinel and some buffer position below `ROOT_HISTORY_SIZE` holds it. -/
theorem MerkleTree.is_known_root_iff (t : MerkleTree) (root : Hash)
    (h : t.current_root_index < ROOT_HISTORY_SIZE) :
    (t.is_known_root root = true ↔
      root ≠ zeroHash ∧ ∃ j < 30, t.roots.getD j zeroHash = root) := by
  unfold MerkleTree.is_known_root
  have h30 : t.current_root_index < 30 := h
  by_cases hz : root = zeroHash
  · simp [hz]
  · rw [if_neg hz]
    have hD : (t.current_root_index + 30 - ((t.current_root_index + 1) % 30)) % 30 = 29 := by
      omega
    rw [show ROOT_HISTORY_SIZE = 30 from rfl,
      MerkleTree.scanLoop_iff t.roots t.current_root_index root 30 t.current_root_index
        h30 h30 (by omega)]
    constructor
    · rintro ⟨s, hs, heq⟩
      exact ⟨hz, (t.current_root_index + 30 - s) % 30, by omega, heq⟩
    · rintro ⟨-, j, hj, heq⟩
      refine ⟨(t.current_root_index + 30 - j) % 30, by omega, ?_⟩
      rw [(by omega :
        (t.current_root_index + 30 - (t.current_root_index + 30 - j) % 30) % 30 = j)]
      exact heq

/-- The all-zero sentinel is never a known root, in any state. -/
theorem MerkleTree.is_known_root_zero (t : MerkleTree) :
    t.is_known_root zeroHash = false := by
  unfold MerkleTree.is_known_root
  rw [if_pos rfl]

/-- Claim C5: `is_known_root` semantics.  The all-zero sentinel is rejected
in every tree state; and on every state whose `current_root_index` is a
valid ring position (all constructed states, by C10's invariant) the result
is `true` exactly when the root matches an entry found by scanning the ring
buffer backward from the most recent entry, up to `ROOT_HISTORY_SIZE`
entries inclusive of wrap-around. -/
theorem is_known_root_scan_semantics (t : MerkleTree) (root : Hash) :
    t.is_known_root zeroHash = false ∧
    (t.current_root_index < ROOT_HISTORY_SIZE →
      (t.is_known_root root = true ↔ MerkleTree.knownRootSpec t root)) := by
  refine ⟨MerkleTree.is_known_root_zero t, fun h => ?_⟩
  rw [MerkleTree.is_known_root_iff t root h]
  unfold MerkleTree.knownRootSpec
  simp only [show ROOT_HISTORY_SIZE = 30 from rfl]
  constructor
  · rintro ⟨hz, j, hj, heq⟩
    refine ⟨hz, (t.current_root_index + 30 - j) % 30, by omega, ?_⟩
    rw [(by omega :
      (t.current_root_index + 30 - (t.current_root_index + 30 - j) % 30) % 30 = j)]
    exact heq
  · rintro ⟨hz, s, hs, heq⟩
    refine ⟨hz, (t.current_root_index + 30 - s) % 30, by omega, heq⟩

/-- Witness for C5 on a concrete state: a fresh depth-20 tree, querying the
empty-tree root. -/
theorem is_known_root_scan_semantics_witness :
    MerkleTree.is_known_root ⟨0, 0, ZEROS.take 21, [ZEROS.getD 19 zeroHash]⟩ zeroHash = false ∧
    (MerkleTree.is_known_root ⟨0, 0, ZEROS.take 21, [ZEROS.getD 19 zeroHash]⟩
        (ZEROS.getD 19 zeroHash) = true ↔
      MerkleTree.knownRootSpec ⟨0, 0, ZEROS.take 21, [ZEROS.getD 19 zeroHash]⟩
        (ZEROS.getD 19 zeroHash)) :=
  ⟨(is_known_root_scan_semantics ⟨0, 0, ZEROS.take 21, [ZEROS.getD 19 zeroHash]⟩
      (ZEROS.getD 19 zeroHash)).1,
   (is_known_root_scan_semantics ⟨0, 0, ZEROS.take 21, [ZEROS.getD 19 zeroHash]⟩
      (ZEROS.getD 19 zeroHash)).2 (by decide)⟩

/-- Reading the ring store: slot `min i v.length` receives the new value
(overwrite when `i` exists, push to position `v.length` otherwise) and
every other slot is unchanged. -/
theorem MerkleTree.getD_setOrPush (v : List Hash) (i : Nat) (x : Hash) (j : Nat) :
    (MerkleTree.setOrPush v i x).getD j zeroHash
      = if j = min i v.length then x else v.getD j zeroHash := by
  unfold MerkleTree.setOrPush
  by_cases hi : i < v.length
  · rw [if_pos hi, Nat.min_eq_left (by omega)]
    by_cases hj : j = i
    · subst hj
      rw [if_pos rfl, List.getD_eq_getElem _ _ (by rw [List.length_set]; exact hi)]
      exact List.getElem_set_eq _
    · rw [if_neg hj]
      by_cases hjl : j < v.length
      · rw [List.getD_eq_getElem _ _ (by rw [List.length_set]; exact hjl),
          List.getD_eq_getElem _ _ hjl]
        exact List.getElem_set_ne (fun hij => hj hij.symm) _
      · rw [List.getD_eq_default _ _ (by rw [List.length_set]; omega),
          List.getD_eq_default _ _ (by omega)]
  · rw [if_neg hi, Nat.min_eq_right (by omega)]
    by_cases hj : j = v.length
    · subst hj
      rw [if_pos rfl, List.getD_eq_getElem _ _ (by simp)]
      rw [List.getElem_append_right (Nat.le_refl _)]
      simp
    · rw [if_neg hj]
      by_cases hjl : j < v.length
      · rw [List.getD_eq_getElem _ _ (by simp; omega), List.getD_eq_getElem _ _ hjl]
        exact List.getElem_append_left hjl
      · rw [List.getD_eq_default _ _ (by simp; omega), List.getD_eq_default _ _ (by omega)]

/-- Field equations of a successful `insert`: the new root-history index,
the ring store of the computed root, and monotonicity of the buffer
length. -/
theorem MerkleTree.insert_fields (d : Nat) (t t' : MerkleTree) (leaf : Hash) (idx : Nat)
    (h : MerkleTree.insert d t leaf = .ok (t', idx)) :
    t'.roots = MerkleTree.setOrPush t.roots ((t.current_root_index + 1) % 30)
        (MerkleTree.insertResultHash d t leaf) ∧
    t'.current_root_index = (t.current_root_index + 1) % 30 ∧
    t'.current_root_index < 30 ∧
    t.roots.length ≤ t'.roots.length := by
  have hne : ¬ t.next_index = 2 ^ d := by
    intro hfull
    rw [MerkleTree.insert_full d t leaf hfull] at h
    exact Except.noConfusion h
  rw [MerkleTree.insert_eq d t leaf hne] at h
  injection h with hpair
  injection hpair with hfst hsnd
  subst hfst
  rw [show ROOT_HISTORY_SIZE = 30 from rfl]
  refine ⟨rfl, rfl, ?_, ?_⟩
  · show (t.current_root_index + 1) % ROOT_HISTORY_SIZE < 30
    rw [show ROOT_HISTORY_SIZE = 30 from rfl]
    omega
  unfold MerkleTree.setOrPush
  split_ifs with hcase
  · rw [List.length_set]
  · simp

/-- A `getD` read that differs from the default hits an existing slot. -/
theorem getD_ne_default_lt {α : Type} (l : List α) (j : Nat) (d : α)
    (h : l.getD j d ≠ d) : j < l.length := by
  by_contra hge
  exact h (List.getD_eq_default l d (by omega))

/-- Backward accounting of a successful insertion run: if after the run a
ring slot `j < 30` holds a value `r` that is not among the produced roots
and not the sentinel, then that slot already held `r` before the run and
none of the run's ring writes — which go to positions
`(current_root_index + k + 1) % 30` for `k` below the run length — touched
`j`. -/
theorem MerkleTree.trace_root_origin (d : Nat) :
    ∀ (leaves : List Hash) (t t' : MerkleTree) (idxs : List Nat) (rs : List Hash)
      (r : Hash) (j : Nat),
      MerkleTree.insertTrace d t leaves = .ok (t', idxs, rs) →
      r ∉ rs → r ≠ zeroHash → j < 30 →
      t'.roots.getD j zeroHash = r →
      t.roots.getD j zeroHash = r ∧
        ∀ k < leaves.length, (t.current_root_index + k + 1) % 30 ≠ j
  | [], t, t', idxs, rs, r, j, htr, hnr, hnz, hj, hroot => by
    injection htr with hpair
    injection hpair with h1 h2
    injection h2 with h2a h2b
    subst h1
    exact ⟨hroot, fun k hk => absurd hk (by simp)⟩
  | leaf :: ls, t, t', idxs, rs, r, j, htr, hnr, hnz, hj, hroot => by
    rcases hins : MerkleTree.insert d t leaf with e | ⟨t1, idx⟩ <;>
      simp only [MerkleTree.insertTrace, hins] at htr
    · exact Except.noConfusion htr
    rcases htr2 : MerkleTree.insertTrace d t1 ls with e | ⟨t2, idxs2, rs2⟩ <;>
      simp only [htr2, Except.ok.injEq, Prod.mk.injEq] at htr
    · exact Except.noConfusion htr
    obtain ⟨ha, hb1, hb2⟩ := htr
    subst ha
    subst hb2
    have hnr1 : r ≠ MerkleTree.insertResultHash d t leaf :=
      fun hcontra => hnr (hcontra ▸ List.mem_cons_self _ _)
    have hnr2 : r ∉ rs2 := fun hcontra => hnr (List.mem_cons_of_mem _ hcontra)
    obtain ⟨ih1, ih2⟩ := MerkleTree.trace_root_origin d ls t1 t2 idxs2 rs2 r j
      htr2 hnr2 hnz hj hroot
    obtain ⟨hroots1, hcri1, hcrilt, hlen1⟩ :=
      MerkleTree.insert_fields d t t1 leaf idx hins
    rw [hroots1, MerkleTree.getD_setOrPush] at ih1
    by_cases hjm : j = min ((t.current_root_index + 1) % 30) t.roots.length
    · rw [if_pos hjm] at ih1
      exact absurd ih1.symm hnr1
    · rw [if_neg hjm] at ih1
      refine ⟨ih1, ?_⟩
      intro k hk
      rcases Nat.eq_zero_or_pos k with hk0 | hkpos
      · subst hk0
        intro hcontra
        have hjlt : j < t.roots.length :=
          getD_ne_default_lt t.roots j zeroHash (by rw [ih1]; exact hnz)
        exact hjm (by rw [← hcontra] at hjlt ⊢; omega)
      · obtain ⟨k', rfl⟩ : ∃ k', k = k' + 1 := ⟨k - 1, by omega⟩
        have := ih2 k' (by simpa using hk)
        rw [hcri1] at this
        intro hcontra
        exact this (by omega)

/-- After at least one insertion the root-history index is a valid ring
position. -/
theorem MerkleTree.insertTrace_cri (d : Nat) :
    ∀ (leaves : List Hash) (t t' : MerkleTree) (idxs : List Nat) (rs : List Hash),
      MerkleTree.insertTrace d t leaves = .ok (t', idxs, rs) →
      leaves ≠ [] → t'.current_root_index < 30
  | [], _, _, _, _, _, hne => absurd rfl hne
  | leaf :: ls, t, t', idxs, rs, htr, _ => by
    rcases hins : MerkleTree.insert d t leaf with e | ⟨t1, idx⟩ <;>
      simp only [MerkleTree.insertTrace, hins] at htr
    · exact Except.noConfusion htr
    rcases htr2 : MerkleTree.insertTrace d t1 ls with e | ⟨t2, idxs2, rs2⟩ <;>
      simp only [htr2, Except.ok.injEq, Prod.mk.injEq] at htr
    · exact Except.noConfusion htr
    obtain ⟨ha, hb1, hb2⟩ := htr
    subst ha
    rcases ls with - | ⟨leaf2, ls'⟩
    · obtain ⟨ha2, hb2a, hb2b⟩ : t1 = t2 ∧ idxs2 = [] ∧ rs2 = [] := by
        simpa [MerkleTree.insertTrace] using htr2
      subst ha2
      exact (MerkleTree.insert_fields d t t1 leaf idx hins).2.2.1
    · exact MerkleTree.insertTrace_cri d (leaf2 :: ls') t1 t2 idxs2 rs2 htr2 (by simp)

/-- Counterexample for claim C4 as stated: a successful insert whose
produced root happens to be the reserved all-zero sentinel is not
recognized by `is_known_root`, because the sentinel check precedes the
scan.  (`insert` is defined for every `DEPTH`; at depth 0 the level loop is
empty and the produced root is the leaf itself, so inserting the all-zero
leaf produces the sentinel root.  At positive depths the produced root is a
BLAKE2b output, and its inequality with the sentinel is a cryptographic
assumption, not a consequence of the code.) -/
theorem root_recognition_counterexample :
    MerkleTree.insertTrace 0 ⟨0, 0, [], [ZEROS.getD 0 zeroHash]⟩ [zeroHash]
      = .ok (⟨1, 1, [], [ZEROS.getD 0 zeroHash, zeroHash]⟩, [0], [zeroHash]) ∧
    MerkleTree.is_known_root ⟨1, 1, [], [ZEROS.getD 0 zeroHash, zeroHash]⟩ zeroHash
      = false := by
  constructor
  · decide
  · decide

/-- Claim C4 (amended): every successful insert's produced root, whenever
it differs from the reserved all-zero sentinel, is immediately recognized
by `is_known_root`; and after `ROOT_HISTORY_SIZE = 30` further successful
insertions whose produced roots all differ from it, that root is no longer
recognized (ring eviction; this part holds with no proviso). -/
theorem root_recognition_and_eviction :
    (∀ (d : Nat) (t t' : MerkleTree) (leaf : Hash) (idxs : List Nat) (r : Hash),
      MerkleTree.insertTrace d t [leaf] = .ok (t', idxs, [r]) →
      r ≠ zeroHash →
      t'.is_known_root r = true) ∧
    (∀ (d : Nat) (t0 t1 : MerkleTree) (leaf0 : Hash) (idxs0 : List Nat) (r : Hash),
      MerkleTree.insertTrace d t0 [leaf0] = .ok (t1, idxs0, [r]) →
      ∀ (leaves : List Hash) (t31 : MerkleTree) (idxs : List Nat) (rs : List Hash),
        leaves.length = ROOT_HISTORY_SIZE →
        MerkleTree.insertTrace d t1 leaves = .ok (t31, idxs, rs) →
        (∀ x ∈ rs, x ≠ r) →
        t31.is_known_root r = false) := by
  constructor
  · intro d t t' leaf idxs r htr hnz
    rcases hins : MerkleTree.insert d t leaf with e | ⟨t1, idx⟩ <;>
      simp only [MerkleTree.insertTrace, hins, Except.ok.injEq, Prod.mk.injEq,
        List.cons.injEq, and_true] at htr
    · exact Except.noConfusion htr
    obtain ⟨ht1, hidx, hr⟩ := htr
    subst ht1
    subst hr
    obtain ⟨hroots1, hcri1, hcrilt, hlen1⟩ := MerkleTree.insert_fields d t t1 leaf idx hins
    rw [MerkleTree.is_known_root_iff t1 _ hcrilt]
    refine ⟨hnz, min ((t.current_root_index + 1) % 30) t.roots.length, by omega, ?_⟩
    rw [hroots1, MerkleTree.getD_setOrPush, if_pos rfl]
  · intro d t0 t1 leaf0 idxs0 r htr0 leaves t31 idxs rs hlen htr hdiff
    by_cases hz : r = zeroHash
    · subst hz
      exact MerkleTree.is_known_root_zero t31
    · have hne : leaves ≠ [] := by
        intro hnil
        subst hnil
        simp [ROOT_HISTORY_SIZE] at hlen
      have hcri : t31.current_root_index < 30 :=
        MerkleTree.insertTrace_cri d leaves t1 t31 idxs rs htr hne
      by_contra htrue
      rw [Bool.not_eq_false] at htrue
      rw [MerkleTree.is_known_root_iff t31 r hcri] at htrue
      obtain ⟨-, j, hj, heq⟩ := htrue
      have hnotin : r ∉ rs := fun hmem => hdiff r hmem rfl
      obtain ⟨horig, hks⟩ :=
        MerkleTree.trace_root_origin d leaves t1 t31 idxs rs r j htr hnotin hz hj heq
      have hlen30 : leaves.length = 30 := hlen
      refine hks ((j + 30 - ((t1.current_root_index % 30) + 1)) % 30) (by omega) (by omega)

/-- Witness for C4 (amended): a concrete successful insert whose produced
root (≠ sentinel) is immediately recognized, and a concrete run of 30
further insertions with 30 pairwise-different produced roots after which
the original root is no longer recognized. -/
theorem root_recognition_and_eviction_witness :
    MerkleTree.is_known_root ⟨1, 1, [], [[42], [5]]⟩ [5] = true ∧
    MerkleTree.is_known_root
      ⟨1, 33, [],
        [[29], [30], [1], [2], [3], [4], [5], [6], [7], [8], [9], [10], [11], [12],
         [13], [14], [15], [16], [17], [18], [19], [20], [21], [22], [23], [24],
         [25], [26], [27], [28]]⟩ [99] = false := by
  constructor
  · exact root_recognition_and_eviction.1 0 ⟨0, 0, [], [[42]]⟩ ⟨1, 1, [], [[42], [5]]⟩
      [5] [0] [5] (by decide) (by decide)
  · exact root_recognition_and_eviction.2 0 ⟨0, 2, [], [[99]]⟩ ⟨1, 3, [], [[99], [99]]⟩
      [99] [2] [99] (by decide)
      [[1], [2], [3], [4], [5], [6], [7], [8], [9], [10], [11], [12], [13], [14],
       [15], [16], [17], [18], [19], [20], [21], [22], [23], [24], [25], [26],
       [27], [28], [29], [30]]
      ⟨1, 33, [],
        [[29], [30], [1], [2], [3], [4], [5], [6], [7], [8], [9], [10], [11], [12],
         [13], [14], [15], [16], [17], [18], [19], [20], [21], [22], [23], [24],
         [25], [26], [27], [28]]⟩
      [3, 4, 5, 6, 7, 8, 9, 10, 11, 12, 13, 14, 15, 16, 17, 18, 19, 20, 21, 22,
       23, 24, 25, 26, 27, 28, 29, 30, 31, 32]
      [[1], [2], [3], [4], [5], [6], [7], [8], [9], [10], [11], [12], [13], [14],
       [15], [16], [17], [18], [19], [20], [21], [22], [23], [24], [25], [26],
       [27], [28], [29], [30]]
      (by decide) (by decide) (by decide)

/-- Each contract call can only grow the used-nullifiers registry: `deposit`
never touches it and `withdraw` only inserts. -/
theorem Slushie.used_mono (s : Slushie.State) (op : Slushie.Op) :
    ∀ c ∈ s.used_nullifiers, c ∈ (Slushie.stepOp s op).used_nullifiers := by
  intro c hc
  rcases op with ⟨env, commitment⟩ | ⟨env, commitment, root⟩
  · simp only [Slushie.stepOp, Slushie.deposit]
    split_ifs with h1
    · exact hc
    · rcases MerkleTree.insert MAX_DEPTH s.merkle_tree commitment with e | ⟨t', idx⟩
      · exact hc
      · exact hc
  · simp only [Slushie.stepOp, Slushie.withdraw]
    split_ifs with h1 h2 h3 h4 <;>
      first
        | exact hc
        | exact List.mem_cons_of_mem _ hc

/-- Counterexample for claim C2 as stated: with a still-known root, an
unused commitment and a balance that suffices for one withdrawal
(`balance = deposit_size = 13`), the first `withdraw` succeeds but the
second fails with `InsufficientFunds`, not `NullifierAlreadyUsed` — the
balance check at line 151 precedes the nullifier check at line 155, and the
first withdrawal drained the balance. -/
theorem nullifier_exactly_once_counterexample :
    MerkleTree.is_known_root
        (⟨⟨0, 0, ZEROS.take 21, [ZEROS.getD 19 zeroHash]⟩, 13, []⟩ : Slushie.State).merkle_tree
        (ZEROS.getD 19 zeroHash) = true ∧
    (ZEROS.getD 0 zeroHash : Hash) ∉
      (⟨⟨0, 0, ZEROS.take 21, [ZEROS.getD 19 zeroHash]⟩, 13, []⟩ : Slushie.State).used_nullifiers ∧
    (13 : Nat) ≤ (⟨13, 0, true⟩ : Slushie.LedgerEnv).balance ∧
    (Slushie.withdraw ⟨⟨0, 0, ZEROS.take 21, [ZEROS.getD 19 zeroHash]⟩, 13, []⟩
        ⟨13, 0, true⟩ (ZEROS.getD 0 zeroHash) (ZEROS.getD 19 zeroHash)).2.2 = .ok () ∧
    (Slushie.withdraw
        (Slushie.withdraw ⟨⟨0, 0, ZEROS.take 21, [ZEROS.getD 19 zeroHash]⟩, 13, []⟩
          ⟨13, 0, true⟩ (ZEROS.getD 0 zeroHash) (ZEROS.getD 19 zeroHash)).1
        (Slushie.withdraw ⟨⟨0, 0, ZEROS.take 21, [ZEROS.getD 19 zeroHash]⟩, 13, []⟩
          ⟨13, 0, true⟩ (ZEROS.getD 0 zeroHash) (ZEROS.getD 19 zeroHash)).2.1
        (ZEROS.getD 0 zeroHash) (ZEROS.getD 19 zeroHash)).2.2
      = .error .InsufficientFunds := by
  refine ⟨?_, ?_, ?_, ?_, ?_⟩ <;> decide

/-- Claim C2 (amended): once a commitment is marked used it is never
unmarked by any subsequent sequence of contract calls; and for every state
in which the root is still known, the commitment unused, the external
transfer succeeds and the balance covers two withdrawals
(`2 * deposit_size ≤ balance` — with only one withdrawal's worth the second
call fails with `InsufficientFunds` instead, see the counterexample),
calling `withdraw` twice succeeds the first time and fails the second time
with `NullifierAlreadyUsed`, the external balance changing exactly once. -/
theorem nullifier_exactly_once :
    (∀ (s : Slushie.State) (ops : List Slushie.Op) (c : Hash),
      c ∈ s.used_nullifiers → c ∈ (ops.foldl Slushie.stepOp s).used_nullifiers) ∧
    (∀ (s : Slushie.State) (env : Slushie.LedgerEnv) (c root : Hash),
      s.merkle_tree.is_known_root root = true →
      c ∉ s.used_nullifiers →
      env.transfer_ok = true →
      2 * s.deposit_size ≤ env.balance →
      (Slushie.withdraw s env c root).2.2 = .ok () ∧
      (Slushie.withdraw s env c root).2.1.balance = env.balance - s.deposit_size ∧
      Slushie.withdraw (Slushie.withdraw s env c root).1 (Slushie.withdraw s env c root).2.1
          c root
        = ((Slushie.withdraw s env c root).1, (Slushie.withdraw s env c root).2.1,
           .error .NullifierAlreadyUsed)) := by
  constructor
  · intro s ops
    induction ops generalizing s with
    | nil => exact fun c hc => hc
    | cons op ops ih =>
      intro c hc
      exact ih (Slushie.stepOp s op) c (Slushie.used_mono s op c hc)
  · intro s env c root hroot hunused htok hbal
    have hfirst : Slushie.withdraw s env c root
        = ({ s with used_nullifiers := c :: s.used_nullifiers },
           { env with balance := env.balance - s.deposit_size }, .ok ()) := by
      unfold Slushie.withdraw
      rw [if_neg (by rw [hroot]; exact fun hcontra => hcontra rfl),
        if_neg (by omega), if_neg hunused, if_neg (by rw [htok]; exact fun hcontra => hcontra rfl)]
    rw [hfirst]
    refine ⟨rfl, rfl, ?_⟩
    unfold Slushie.withdraw
    rw [if_neg (by
      show ¬¬(s.merkle_tree.is_known_root root = true)
      rw [hroot]
      exact fun hcontra => hcontra rfl)]
    rw [if_neg (by
      show ¬(env.balance - s.deposit_size < s.deposit_size)
      omega)]
    rw [if_pos (List.mem_cons_self c s.used_nullifiers)]

/-- Witness for C2 (amended): a marked nullifier stays marked across a
call, and a concrete double withdrawal with `deposit_size = 13` and balance
26 succeeds once and then fails with `NullifierAlreadyUsed`. -/
theorem nullifier_exactly_once_witness :
    (ZEROS.getD 0 zeroHash : Hash) ∈
      ([Slushie.Op.withdraw ⟨100, 0, true⟩ (ZEROS.getD 1 zeroHash) zeroHash].foldl
        Slushie.stepOp
        ⟨⟨0, 0, ZEROS.take 21, [ZEROS.getD 19 zeroHash]⟩, 13,
          [ZEROS.getD 0 zeroHash]⟩).used_nullifiers ∧
    ((Slushie.withdraw ⟨⟨0, 0, ZEROS.take 21, [ZEROS.getD 19 zeroHash]⟩, 13, []⟩
        ⟨26, 0, true⟩ (ZEROS.getD 0 zeroHash) (ZEROS.getD 19 zeroHash)).2.2 = .ok () ∧
      (Slushie.withdraw ⟨⟨0, 0, ZEROS.take 21, [ZEROS.getD 19 zeroHash]⟩, 13, []⟩
        ⟨26, 0, true⟩ (ZEROS.getD 0 zeroHash) (ZEROS.getD 19 zeroHash)).2.1.balance
        = 26 - 13 ∧
      Slushie.withdraw
          (Slushie.withdraw ⟨⟨0, 0, ZEROS.take 21, [ZEROS.getD 19 zeroHash]⟩, 13, []⟩
            ⟨26, 0, true⟩ (ZEROS.getD 0 zeroHash) (ZEROS.getD 19 zeroHash)).1
          (Slushie.withdraw ⟨⟨0, 0, ZEROS.take 21, [ZEROS.getD 19 zeroHash]⟩, 13, []⟩
            ⟨26, 0, true⟩ (ZEROS.getD 0 zeroHash) (ZEROS.getD 19 zeroHash)).2.1
          (ZEROS.getD 0 zeroHash) (ZEROS.getD 19 zeroHash)
        = ((Slushie.withdraw ⟨⟨0, 0, ZEROS.take 21, [ZEROS.getD 19 zeroHash]⟩, 13, []⟩
              ⟨26, 0, true⟩ (ZEROS.getD 0 zeroHash) (ZEROS.getD 19 zeroHash)).1,
           (Slushie.withdraw ⟨⟨0, 0, ZEROS.take 21, [ZEROS.getD 19 zeroHash]⟩, 13, []⟩
              ⟨26, 0, true⟩ (ZEROS.getD 0 zeroHash) (ZEROS.getD 19 zeroHash)).2.1,
           .error .NullifierAlreadyUsed)) :=
  ⟨nullifier_exactly_once.1
      ⟨⟨0, 0, ZEROS.take 21, [ZEROS.getD 19 zeroHash]⟩, 13, [ZEROS.getD 0 zeroHash]⟩
      [Slushie.Op.withdraw ⟨100, 0, true⟩ (ZEROS.getD 1 zeroHash) zeroHash]
      (ZEROS.getD 0 zeroHash) (by decide),
   nullifier_exactly_once.2
      ⟨⟨0, 0, ZEROS.take 21, [ZEROS.getD 19 zeroHash]⟩, 13, []⟩ ⟨26, 0, true⟩
      (ZEROS.getD 0 zeroHash) (ZEROS.getD 19 zeroHash)
      (by decide) (by decide) (by decide) (by decide)⟩

set_option maxRecDepth 1000000 in
/-- Step 1 of the `ZEROS` table of `src/tree/merkle_tree.rs`. -/
theorem zeros_rel_1 : ZEROS.getD 1 zeroHash
    = MerkleTree.hash_left_right (ZEROS.getD 0 zeroHash) (ZEROS.getD 0 zeroHash) := by
  decide

set_option maxRecDepth 1000000 in
/-- Step 2 of the `ZEROS` table of `src/tree/merkle_tree.rs`. -/
theorem zeros_rel_2 : ZEROS.getD 2 zeroHash
    = MerkleTree.hash_left_right (ZEROS.getD 1 zeroHash) (ZEROS.getD 1 zeroHash) := by
  decide

set_option maxRecDepth 1000000 in
/-- Step 3 of the `ZEROS` table of `src/tree/merkle_tree.rs`. -/
theorem zeros_rel_3 : ZEROS.getD 3 zeroHash
    = MerkleTree.hash_left_right (ZEROS.getD 2 zeroHash) (ZEROS.getD 2 zeroHash) := by
  decide

set_option maxRecDepth 1000000 in
/-- Step 4 of the `ZEROS` table of `src/tree/merkle_tree.rs`. -/
theorem zeros_rel_4 : ZEROS.getD 4 zeroHash
    = MerkleTree.hash_left_right (ZEROS.getD 3 zeroHash) (ZEROS.getD 3 zeroHash) := by
  decide

set_option maxRecDepth 1000000 in
/-- Step 5 of the `ZEROS` table of `src/tree/merkle_tree.rs`. -/
theorem zeros_rel_5 : ZEROS.getD 5 zeroHash
    = MerkleTree.hash_left_right (ZEROS.getD 4 zeroHash) (ZEROS.getD 4 zeroHash) := by
  decide

set_option maxRecDepth 1000000 in
/-- Step 6 of the `ZEROS` table of `src/tree/merkle_tree.rs`. -/
theorem zeros_rel_6 : ZEROS.getD 6 zeroHash
    = MerkleTree.hash_left_right (ZEROS.getD 5 zeroHash) (ZEROS.getD 5 zeroHash) := by
  decide

set_option maxRecDepth 1000000 in
/-- Step 7 of the `ZEROS` table of `src/tree/merkle_tree.rs`. -/
theorem zeros_rel_7 : ZEROS.getD 7 zeroHash
    = MerkleTree.hash_left_right (ZEROS.getD 6 zeroHash) (ZEROS.getD 6 zeroHash) := by
  decide

set_option maxRecDepth 1000000 in
/-- Step 8 of the `ZEROS` table of `src/tree/merkle_tree.rs`. -/
theorem zeros_rel_8 : ZEROS.getD 8 zeroHash
    = MerkleTree.hash_left_right (ZEROS.getD 7 zeroHash) (ZEROS.getD 7 zeroHash) := by
  decide

set_option maxRecDepth 1000000 in
/-- Step 9 of the `ZEROS` table of `src/tree/merkle_tree.rs`. -/
theorem zeros_rel_9 : ZEROS.getD 9 zeroHash
    = MerkleTree.hash_left_right (ZEROS.getD 8 zeroHash) (ZEROS.getD 8 zeroHash) := by
  decide

set_option maxRecDepth 1000000 in
/-- Step 10 of the `ZEROS` table of `src/tree/merkle_tree.rs`. -/
theorem zeros_rel_10 : ZEROS.getD 10 zeroHash
    = MerkleTree.hash_left_right (ZEROS.getD 9 zeroHash) (ZEROS.getD 9 zeroHash) := by
  decide

set_option maxRecDepth 1000000 in
/-- Step 11 of the `ZEROS` table of `src/tree/merkle_tree.rs`. -/
theorem zeros_rel_11 : ZEROS.getD 11 zeroHash
    = MerkleTree.hash_left_right (ZEROS.getD 10 zeroHash) (ZEROS.getD 10 zeroHash) := by
  decide

set_option maxRecDepth 1000000 in
/-- Step 12 of the `ZEROS` table of `src/tree/merkle_tree.rs`. -/
theorem zeros_rel_12 : ZEROS.getD 12 zeroHash
    = MerkleTree.hash_left_right (ZEROS.getD 11 zeroHash) (ZEROS.getD 11 zeroHash) := by
  decide

set_option maxRecDepth 1000000 in
/-- Step 13 of the `ZEROS` table of `src/tree/merkle_tree.rs`. -/
theorem zeros_rel_13 : ZEROS.getD 13 zeroHash
    = MerkleTree.hash_left_right (ZEROS.getD 12 zeroHash) (ZEROS.getD 12 zeroHash) := by
  decide

set_option maxRecDepth 1000000 in
/-- Step 14 of the `ZEROS` table of `src/tree/merkle_tree.rs`. -/
theorem zeros_rel_14 : ZEROS.getD 14 zeroHash
    = MerkleTree.hash_left_right (ZEROS.getD 13 zeroHash) (ZEROS.getD 13 zeroHash) := by
  decide

set_option maxRecDepth 1000000 in
/-- Step 15 of the `ZEROS` table of `src/tree/merkle_tree.rs`. -/
theorem zeros_rel_15 : ZEROS.getD 15 zeroHash
    = MerkleTree.hash_left_right (ZEROS.getD 14 zeroHash) (ZEROS.getD 14 zeroHash) := by
  decide

set_option maxRecDepth 1000000 in
/-- Step 16 of the `ZEROS` table of `src/tree/merkle_tree.rs`. -/
theorem zeros_rel_16 : ZEROS.getD 16 zeroHash
    = MerkleTree.hash_left_right (ZEROS.getD 15 zeroHash) (ZEROS.getD 15 zeroHash) := by
  decide

set_option maxRecDepth 1000000 in
/-- Step 17 of the `ZEROS` table of `src/tree/merkle_tree.rs`. -/
theorem zeros_rel_17 : ZEROS.getD 17 zeroHash
    = MerkleTree.hash_left_right (ZEROS.getD 16 zeroHash) (ZEROS.getD 16 zeroHash) := by
  decide

set_option maxRecDepth 1000000 in
/-- Step 18 of the `ZEROS` table of `src/tree/merkle_tree.rs`. -/
theorem zeros_rel_18 : ZEROS.getD 18 zeroHash
    = MerkleTree.hash_left_right (ZEROS.getD 17 zeroHash) (ZEROS.getD 17 zeroHash) := by
  decide

set_option maxRecDepth 1000000 in
/-- Step 19 of the `ZEROS` table of `src/tree/merkle_tree.rs`. -/
theorem zeros_rel_19 : ZEROS.getD 19 zeroHash
    = MerkleTree.hash_left_right (ZEROS.getD 18 zeroHash) (ZEROS.getD 18 zeroHash) := by
  decide

set_option maxRecDepth 1000000 in
/-- Step 20 of the `ZEROS` table of `src/tree/merkle_tree.rs`. -/
theorem zeros_rel_20 : ZEROS.getD 20 zeroHash
    = MerkleTree.hash_left_right (ZEROS.getD 19 zeroHash) (ZEROS.getD 19 zeroHash) := by
  decide

set_option maxRecDepth 1000000 in
/-- Step 1 of the `Blake` table of `src/tree/hasher.rs`. -/
theorem blake_zeros_rel_1 : BLAKE_ZEROS.getD 1 zeroHash
    = MerkleTree.hash_left_right (BLAKE_ZEROS.getD 0 zeroHash) (BLAKE_ZEROS.getD 0 zeroHash) := by
  decide

set_option maxRecDepth 1000000 in
/-- Step 2 of the `Blake` table of `src/tree/hasher.rs`. -/
theorem blake_zeros_rel_2 : BLAKE_ZEROS.getD 2 zeroHash
    = MerkleTree.hash_left_right (BLAKE_ZEROS.getD 1 zeroHash) (BLAKE_ZEROS.getD 1 zeroHash) := by
  decide

set_option maxRecDepth 1000000 in
/-- Step 3 of the `Blake` table of `src/tree/hasher.rs`. -/
theorem blake_zeros_rel_3 : BLAKE_ZEROS.getD 3 zeroHash
    = MerkleTree.hash_left_right (BLAKE_ZEROS.getD 2 zeroHash) (BLAKE_ZEROS.getD 2 zeroHash) := by
  decide

set_option maxRecDepth 1000000 in
/-- Step 4 of the `Blake` table of `src/tree/hasher.rs`. -/
theorem blake_zeros_rel_4 : BLAKE_ZEROS.getD 4 zeroHash
    = MerkleTree.hash_left_right (BLAKE_ZEROS.getD 3 zeroHash) (BLAKE_ZEROS.getD 3 zeroHash) := by
  decide

set_option maxRecDepth 1000000 in
/-- Step 5 of the `Blake` table of `src/tree/hasher.rs`. -/
theorem blake_zeros_rel_5 : BLAKE_ZEROS.getD 5 zeroHash
    = MerkleTree.hash_left_right (BLAKE_ZEROS.getD 4 zeroHash) (BLAKE_ZEROS.getD 4 zeroHash) := by
  decide

set_option maxRecDepth 1000000 in
/-- Step 6 of the `Blake` table of `src/tree/hasher.rs`. -/
theorem blake_zeros_rel_6 : BLAKE_ZEROS.getD 6 zeroHash
    = MerkleTree.hash_left_right (BLAKE_ZEROS.getD 5 zeroHash) (BLAKE_ZEROS.getD 5 zeroHash) := by
  decide

set_option maxRecDepth 1000000 in
/-- Step 7 of the `Blake` table of `src/tree/hasher.rs`. -/
theorem blake_zeros_rel_7 : BLAKE_ZEROS.getD 7 zeroHash
    = MerkleTree.hash_left_right (BLAKE_ZEROS.getD 6 zeroHash) (BLAKE_ZEROS.getD 6 zeroHash) := by
  decide

set_option maxRecDepth 1000000 in
/-- Step 8 of the `Blake` table of `src/tree/hasher.rs`. -/
theorem blake_zeros_rel_8 : BLAKE_ZEROS.getD 8 zeroHash
    = MerkleTree.hash_left_right (BLAKE_ZEROS.getD 7 zeroHash) (BLAKE_ZEROS.getD 7 zeroHash) := by
  decide

set_option maxRecDepth 1000000 in
/-- Step 9 of the `Blake` table of `src/tree/hasher.rs`. -/
theorem blake_zeros_rel_9 : BLAKE_ZEROS.getD 9 zeroHash
    = MerkleTree.hash_left_right (BLAKE_ZEROS.getD 8 zeroHash) (BLAKE_ZEROS.getD 8 zeroHash) := by
  decide

set_option maxRecDepth 1000000 in
/-- Step 10 of the `Blake` table of `src/tree/hasher.rs`. -/
theorem blake_zeros_rel_10 : BLAKE_ZEROS.getD 10 zeroHash
    = MerkleTree.hash_left_right (BLAKE_ZEROS.getD 9 zeroHash) (BLAKE_ZEROS.getD 9 zeroHash) := by
  decide

set_option maxRecDepth 1000000 in
/-- Step 11 of the `Blake` table of `src/tree/hasher.rs`. -/
theorem blake_zeros_rel_11 : BLAKE_ZEROS.getD 11 zeroHash
    = MerkleTree.hash_left_right (BLAKE_ZEROS.getD 10 zeroHash) (BLAKE_ZEROS.getD 10 zeroHash) := by
  decide

set_option maxRecDepth 1000000 in
/-- Step 12 of the `Blake` table of `src/tree/hasher.rs`. -/
theorem blake_zeros_rel_12 : BLAKE_ZEROS.getD 12 zeroHash
    = MerkleTree.hash_left_right (BLAKE_ZEROS.getD 11 zeroHash) (BLAKE_ZEROS.getD 11 zeroHash) := by
  decide

set_option maxRecDepth 1000000 in
/-- Step 13 of the `Blake` table of `src/tree/hasher.rs`. -/
theorem blake_zeros_rel_13 : BLAKE_ZEROS.getD 13 zeroHash
    = MerkleTree.hash_left_right (BLAKE_ZEROS.getD 12 zeroHash) (BLAKE_ZEROS.getD 12 zeroHash) := by
  decide

set_option maxRecDepth 1000000 in
/-- Step 14 of the `Blake` table of `src/tree/hasher.rs`. -/
theorem blake_zeros_rel_14 : BLAKE_ZEROS.getD 14 zeroHash
    = MerkleTree.hash_left_right (BLAKE_ZEROS.getD 13 zeroHash) (BLAKE_ZEROS.getD 13 zeroHash) := by
  decide

set_option maxRecDepth 1000000 in
/-- Step 15 of the `Blake` table of `src/tree/hasher.rs`. -/
theorem blake_zeros_rel_15 : BLAKE_ZEROS.getD 15 zeroHash
    = MerkleTree.hash_left_right (BLAKE_ZEROS.getD 14 zeroHash) (BLAKE_ZEROS.getD 14 zeroHash) := by
  decide

set_option maxRecDepth 1000000 in
/-- Step 16 of the `Blake` table of `src/tree/hasher.rs`. -/
theorem blake_zeros_rel_16 : BLAKE_ZEROS.getD 16 zeroHash
    = MerkleTree.hash_left_right (BLAKE_ZEROS.getD 15 zeroHash) (BLAKE_ZEROS.getD 15 zeroHash) := by
  decide

set_option maxRecDepth 1000000 in
/-- Step 17 of the `Blake` table of `src/tree/hasher.rs`. -/
theorem blake_zeros_rel_17 : BLAKE_ZEROS.getD 17 zeroHash
    = MerkleTree.hash_left_right (BLAKE_ZEROS.getD 16 zeroHash) (BLAKE_ZEROS.getD 16 zeroHash) := by
  decide

set_option maxRecDepth 1000000 in
/-- Step 18 of the `Blake` table of `src/tree/hasher.rs`. -/
theorem blake_zeros_rel_18 : BLAKE_ZEROS.getD 18 zeroHash
    = MerkleTree.hash_left_right (BLAKE_ZEROS.getD 17 zeroHash) (BLAKE_ZEROS.getD 17 zeroHash) := by
  decide

set_option maxRecDepth 1000000 in
/-- Step 19 of the `Blake` table of `src/tree/hasher.rs`. -/
theorem blake_zeros_rel_19 : BLAKE_ZEROS.getD 19 zeroHash
    = MerkleTree.hash_left_right (BLAKE_ZEROS.getD 18 zeroHash) (BLAKE_ZEROS.getD 18 zeroHash) := by
  decide

set_option maxRecDepth 1000000 in
/-- Step 20 of the `Blake` table of `src/tree/hasher.rs`. -/
theorem blake_zeros_rel_20 : BLAKE_ZEROS.getD 20 zeroHash
    = MerkleTree.hash_left_right (BLAKE_ZEROS.getD 19 zeroHash) (BLAKE_ZEROS.getD 19 zeroHash) := by
  decide

set_option maxRecDepth 1000000 in
/-- Step 21 of the `Blake` table of `src/tree/hasher.rs`. -/
theorem blake_zeros_rel_21 : BLAKE_ZEROS.getD 21 zeroHash
    = MerkleTree.hash_left_right (BLAKE_ZEROS.getD 20 zeroHash) (BLAKE_ZEROS.getD 20 zeroHash) := by
  decide

set_option maxRecDepth 1000000 in
/-- Step 22 of the `Blake` table of `src/tree/hasher.rs`. -/
theorem blake_zeros_rel_22 : BLAKE_ZEROS.getD 22 zeroHash
    = MerkleTree.hash_left_right (BLAKE_ZEROS.getD 21 zeroHash) (BLAKE_ZEROS.getD 21 zeroHash) := by
  decide

set_option maxRecDepth 1000000 in
/-- Step 23 of the `Blake` table of `src/tree/hasher.rs`. -/
theorem blake_zeros_rel_23 : BLAKE_ZEROS.getD 23 zeroHash
    = MerkleTree.hash_left_right (BLAKE_ZEROS.getD 22 zeroHash) (BLAKE_ZEROS.getD 22 zeroHash) := by
  decide

set_option maxRecDepth 1000000 in
/-- Step 24 of the `Blake` table of `src/tree/hasher.rs`. -/
theorem blake_zeros_rel_24 : BLAKE_ZEROS.getD 24 zeroHash
    = MerkleTree.hash_left_right (BLAKE_ZEROS.getD 23 zeroHash) (BLAKE_ZEROS.getD 23 zeroHash) := by
  decide

set_option maxRecDepth 1000000 in
/-- Step 25 of the `Blake` table of `src/tree/hasher.rs`. -/
theorem blake_zeros_rel_25 : BLAKE_ZEROS.getD 25 zeroHash
    = MerkleTree.hash_left_right (BLAKE_ZEROS.getD 24 zeroHash) (BLAKE_ZEROS.getD 24 zeroHash) := by
  decide

set_option maxRecDepth 1000000 in
/-- Step 26 of the `Blake` table of `src/tree/hasher.rs`. -/
theorem blake_zeros_rel_26 : BLAKE_ZEROS.getD 26 zeroHash
    = MerkleTree.hash_left_right (BLAKE_ZEROS.getD 25 zeroHash) (BLAKE_ZEROS.getD 25 zeroHash) := by
  decide

set_option maxRecDepth 1000000 in
/-- Step 27 of the `Blake` table of `src/tree/hasher.rs`. -/
theorem blake_zeros_rel_27 : BLAKE_ZEROS.getD 27 zeroHash
    = MerkleTree.hash_left_right (BLAKE_ZEROS.getD 26 zeroHash) (BLAKE_ZEROS.getD 26 zeroHash) := by
  decide

set_option maxRecDepth 1000000 in
/-- Step 28 of the `Blake` table of `src/tree/hasher.rs`. -/
theorem blake_zeros_rel_28 : BLAKE_ZEROS.getD 28 zeroHash
    = MerkleTree.hash_left_right (BLAKE_ZEROS.getD 27 zeroHash) (BLAKE_ZEROS.getD 27 zeroHash) := by
  decide

set_option maxRecDepth 1000000 in
/-- Step 29 of the `Blake` table of `src/tree/hasher.rs`. -/
theorem blake_zeros_rel_29 : BLAKE_ZEROS.getD 29 zeroHash
    = MerkleTree.hash_left_right (BLAKE_ZEROS.getD 28 zeroHash) (BLAKE_ZEROS.getD 28 zeroHash) := by
  decide

set_option maxRecDepth 1000000 in
/-- Step 30 of the `Blake` table of `src/tree/hasher.rs`. -/
theorem blake_zeros_rel_30 : BLAKE_ZEROS.getD 30 zeroHash
    = MerkleTree.hash_left_right (BLAKE_ZEROS.getD 29 zeroHash) (BLAKE_ZEROS.getD 29 zeroHash) := by
  decide

set_option maxRecDepth 1000000 in
/-- Step 31 of the `Blake` table of `src/tree/hasher.rs`. -/
theorem blake_zeros_rel_31 : BLAKE_ZEROS.getD 31 zeroHash
    = MerkleTree.hash_left_right (BLAKE_ZEROS.getD 30 zeroHash) (BLAKE_ZEROS.getD 30 zeroHash) := by
  decide

/-- Claim C9: empty-subtree table derivation.  In the hard-coded tables of
empty-subtree hashes for the Blake2x256 backend -- `ZEROS` in
`src/tree/merkle_tree.rs` (21 entries, the table the claim's sources cite)
and the `Blake` hasher's table in `src/tree/hasher.rs` (32 entries) --
every entry of index `i >= 1` is `hash_left_right` of the previous entry
with itself, i.e. each table is obtained by repeatedly self-hashing its
seed entry.  (Verified by recomputing BLAKE2b-256 inside the kernel, one
step per lemma above.  The `Poseidon` table of `src/tree/hasher.rs` is
derived with the external `dusk_poseidon` sponge, which is not part of this
repository and is not checked here.) -/
theorem zeros_tables_self_hash :
    (∀ i, i < 21 → 1 ≤ i →
      ZEROS.getD i zeroHash
        = MerkleTree.hash_left_right (ZEROS.getD (i - 1) zeroHash)
            (ZEROS.getD (i - 1) zeroHash)) ∧
    (∀ i, i < 32 → 1 ≤ i →
      BLAKE_ZEROS.getD i zeroHash
        = MerkleTree.hash_left_right (BLAKE_ZEROS.getD (i - 1) zeroHash)
            (BLAKE_ZEROS.getD (i - 1) zeroHash)) := by
  constructor <;> intro i h1 h2
  · interval_cases i
    exacts [zeros_rel_1, zeros_rel_2, zeros_rel_3, zeros_rel_4, zeros_rel_5, zeros_rel_6, zeros_rel_7, zeros_rel_8, zeros_rel_9, zeros_rel_10, zeros_rel_11, zeros_rel_12, zeros_rel_13, zeros_rel_14, zeros_rel_15, zeros_rel_16, zeros_rel_17, zeros_rel_18, zeros_rel_19, zeros_rel_20]
  · interval_cases i
    exacts [blake_zeros_rel_1, blake_zeros_rel_2, blake_zeros_rel_3, blake_zeros_rel_4, blake_zeros_rel_5, blake_zeros_rel_6, blake_zeros_rel_7, blake_zeros_rel_8, blake_zeros_rel_9, blake_zeros_rel_10, blake_zeros_rel_11, blake_zeros_rel_12, blake_zeros_rel_13, blake_zeros_rel_14, blake_zeros_rel_15, blake_zeros_rel_16, blake_zeros_rel_17, blake_zeros_rel_18, blake_zeros_rel_19, blake_zeros_rel_20, blake_zeros_rel_21, blake_zeros_rel_22, blake_zeros_rel_23, blake_zeros_rel_24, blake_zeros_rel_25, blake_zeros_rel_26, blake_zeros_rel_27, blake_zeros_rel_28, blake_zeros_rel_29, blake_zeros_rel_30, blake_zeros_rel_31]

/-- Witness for C9 at index 1 of both tables. -/
theorem zeros_tables_self_hash_witness :
    ZEROS.getD 1 zeroHash
      = MerkleTree.hash_left_right (ZEROS.getD 0 zeroHash) (ZEROS.getD 0 zeroHash) ∧
    BLAKE_ZEROS.getD 1 zeroHash
      = MerkleTree.hash_left_right (BLAKE_ZEROS.getD 0 zeroHash)
          (BLAKE_ZEROS.getD 0 zeroHash) :=
  ⟨zeros_tables_self_hash.1 1 (by decide) (by decide),
   zeros_tables_self_hash.2 1 (by decide) (by decide)⟩
